import Mathlib

/-!
# lvt2calib : `ouster_pattern_circle.cpp`

A shallow embedding of the laser pattern node (`callback` and the control loop
of `main`) and the properties of its stages.

Conventions of the embedding

* Coordinates, intensities and thresholds are exact rationals (`ℚ`): the
  development reasons about the arithmetic the code writes down, not about the
  rounding of `float`/`double`.  A comparison `sqrt(s) < t` or `sqrt(s) > t`
  is decided on the squares (`sqrtLt`, `sqrtGt`); `sqrtLt_iff` and
  `sqrtGt_iff` relate both to `Real.sqrt`.
* `std::vector` and `pcl::PointCloud` are lists; `push_back` appends at the end.
* The counters `nFrames`, `clouds_used_`, `clouds_proc_` are mathematical
  integers: the node would need more than `2^31` frames to leave the range of
  `int`.  The one place where the width of a machine integer decides the
  outcome, the comparison of `found_centers.size()` (a `size_t`) with the
  `int` `min_centers_found_`, is modelled with the conversion to 64-bit
  unsigned that C++ performs there.
* A division whose divisor is zero gives `inf` or `NaN` in the code, which no
  rational stands for.  `quotient` returns `none` there, and `zcoordChecked`,
  `backProjectChecked` and `commitCentersChecked` are lines 250-266 and
  418-427 with every quotient checked; the total `zcoordXYPlane`,
  `backProject` and `commitCenters` give the same values wherever the divisors
  are not zero and are to be read on that domain only.
* Calls into PCL (RANSAC segmentation, kd-tree search, Euclidean clustering)
  and the helpers of this package that live in headers outside this file
  (`Ouster::getRings`, `getRotationMatrix`, `getCenterClusters`) are inputs:
  the frame record carries what they return.
-/

namespace Lvt2Calib

/-! ## Points and clouds -/

/-- The point `pcl::PointXYZ`. -/
structure PointXYZ where
  x : ℚ
  y : ℚ
  z : ℚ
  deriving DecidableEq, Repr

/-- The point `pcl::PointXYZI`. -/
structure PointXYZI where
  x : ℚ
  y : ℚ
  z : ℚ
  intensity : ℚ
  deriving DecidableEq, Repr

/-- The point `Ouster::Point` (`PointType`): position, intensity and scan line. -/
structure PointType where
  x : ℚ
  y : ℚ
  z : ℚ
  intensity : ℚ
  ring : Nat
  deriving DecidableEq, Repr

/-- The four values of `pcl::ModelCoefficients` of a plane `a x + b y + c z + d = 0`. -/
structure PlaneCoefficients where
  a : ℚ
  b : ℚ
  c : ℚ
  d : ℚ
  deriving DecidableEq, Repr

/-- An `Eigen::Affine3f`: a linear part (row major) and a translation. -/
structure Affine3 where
  m00 : ℚ
  m01 : ℚ
  m02 : ℚ
  m10 : ℚ
  m11 : ℚ
  m12 : ℚ
  m20 : ℚ
  m21 : ℚ
  m22 : ℚ
  t0 : ℚ
  t1 : ℚ
  t2 : ℚ
  deriving DecidableEq, Repr

/-- The function `pcl::transformPoint`: the affine map applied to a point. -/
def transformPoint (p : PointXYZ) (r : Affine3) : PointXYZ :=
  { x := r.m00 * p.x + r.m01 * p.y + r.m02 * p.z + r.t0
    y := r.m10 * p.x + r.m11 * p.y + r.m12 * p.z + r.t1
    z := r.m20 * p.x + r.m21 * p.y + r.m22 * p.z + r.t2 }

/-- The function `pcl::transformPointCloud`. -/
def transformPointCloud (cloud : List PointXYZ) (r : Affine3) : List PointXYZ :=
  cloud.map (fun p => transformPoint p r)

/-- Determinant of the linear part. -/
def Affine3.det (r : Affine3) : ℚ :=
  r.m00 * (r.m11 * r.m22 - r.m12 * r.m21)
    - r.m01 * (r.m10 * r.m22 - r.m12 * r.m20)
    + r.m02 * (r.m10 * r.m21 - r.m11 * r.m20)

/-- The method `Eigen::Affine3f::inverse()`: the linear part inverted by
cofactors, the translation mapped to `-(L⁻¹ t)`. -/
def Affine3.inverse (r : Affine3) : Affine3 :=
  let dt := r.det
  let i00 := (r.m11 * r.m22 - r.m12 * r.m21) / dt
  let i01 := (r.m02 * r.m21 - r.m01 * r.m22) / dt
  let i02 := (r.m01 * r.m12 - r.m02 * r.m11) / dt
  let i10 := (r.m12 * r.m20 - r.m10 * r.m22) / dt
  let i11 := (r.m00 * r.m22 - r.m02 * r.m20) / dt
  let i12 := (r.m02 * r.m10 - r.m00 * r.m12) / dt
  let i20 := (r.m10 * r.m21 - r.m11 * r.m20) / dt
  let i21 := (r.m01 * r.m20 - r.m00 * r.m21) / dt
  let i22 := (r.m00 * r.m11 - r.m01 * r.m10) / dt
  { m00 := i00, m01 := i01, m02 := i02
    m10 := i10, m11 := i11, m12 := i12
    m20 := i20, m21 := i21, m22 := i22
    t0 := -(i00 * r.t0 + i01 * r.t1 + i02 * r.t2)
    t1 := -(i10 * r.t0 + i11 * r.t1 + i12 * r.t2)
    t2 := -(i20 * r.t0 + i21 * r.t1 + i22 * r.t2) }

/-! ## Comparisons against a square root -/

/-- The test `sqrt(s) < t` for `s ≥ 0`, decided without extracting the root. -/
def sqrtLt (s t : ℚ) : Bool :=
  decide (0 < t ∧ s < t ^ 2)

/-- The test `sqrt(s) > t` for `s ≥ 0`, decided without extracting the root. -/
def sqrtGt (s t : ℚ) : Bool :=
  decide (t < 0 ∨ t ^ 2 < s)

/-- The expression `pow(fabs(ax-bx),2) + pow(fabs(ay-by),2)` under the root of
the 2D distances of the circle loop. -/
def sqDist2D (ax ay bx by_ : ℚ) : ℚ :=
  |ax - bx| ^ 2 + |ay - by_| ^ 2

/-! ## Edge detection (lines 159-175) -/

/-- The edge loop: a point of the sweep is pushed to `edges_cloud` when the
1-NN search in the board cloud returns a neighbour (`knn pt = some d`, `d` the
squared distance), `d <= edge_knn_radius_` and
`pt->intensity > edge_depth_thre_`. -/
def edgeDetector (knn : PointType → Option ℚ) (edge_knn_radius_ edge_depth_thre_ : ℚ) :
    List PointType → List PointType
  | [] => []
  | pt :: rest =>
    match knn pt with
    | some d =>
      if d ≤ edge_knn_radius_ then
        if pt.intensity > edge_depth_thre_ then
          pt :: edgeDetector knn edge_knn_radius_ edge_depth_thre_ rest
        else edgeDetector knn edge_knn_radius_ edge_depth_thre_ rest
      else edgeDetector knn edge_knn_radius_ edge_depth_thre_ rest
    | none => edgeDetector knn edge_knn_radius_ edge_depth_thre_ rest

/-- Squared Euclidean distance of a sweep point to a board point. -/
def sqDist3D (p : PointType) (q : PointXYZI) : ℚ :=
  (p.x - q.x) ^ 2 + (p.y - q.y) ^ 2 + (p.z - q.z) ^ 2

/-- An exact 1-nearest-neighbour search over the board cloud: the squared
distance to the closest board point, `none` on an empty board cloud.  This is
what `kdtree.nearestKSearch(searchP, 1, ..)` computes. -/
def nearestKSearch (board : List PointXYZI) (p : PointType) : Option ℚ :=
  match board with
  | [] => none
  | q :: qs => some (qs.foldl (fun acc r => min acc (sqDist3D p r)) (sqDist3D p q))

/-! ## Ring filter (lines 202-223) -/

/-- The conversion of an `Ouster::Point` to the standard point. -/
def toXYZ (p : PointType) : PointXYZ :=
  { x := p.x, y := p.y, z := p.z }

/-- The running values of the ring loop: `circles_cloud` and `ringsWithCircle`. -/
structure RingAcc where
  circles_cloud : List PointXYZ
  ringsWithCircle : Nat
  deriving DecidableEq, Repr

/-- One pass of the body of the ring loop: a ring of fewer than 4 points is
cleared, otherwise its first point is erased, its last point is popped and the
rest is pushed to `circles_cloud`. -/
def ringStep (acc : RingAcc) (ring : List PointType) : RingAcc :=
  if ring.length < 4 then acc
  else
    let ring1 := ring.tail
    let ring2 := ring1.dropLast
    { circles_cloud := ring2.foldl (fun cloud pt => cloud ++ [toXYZ pt]) acc.circles_cloud
      ringsWithCircle := acc.ringsWithCircle + 1 }

/-- The ring loop over `rings2`. -/
def ringFilter (rings2 : List (List PointType)) : RingAcc :=
  rings2.foldl ringStep { circles_cloud := [], ringsWithCircle := 0 }

/-! ## Circle extraction loop (lines 330-410) -/

/-- What `circle_segmentation.segment(*inliers3, *coefficients3)` leaves behind:
the inlier indices into the input cloud and the circle model (center, radius). -/
structure FitResult where
  indices : List Nat
  cx : ℚ
  cy : ℚ
  radius : ℚ
  deriving DecidableEq, Repr

/-- The filter `pcl::ExtractIndices` with `setNegative(false)`: the points at
the given indices. -/
def extractIndices (cloud : List PointXYZ) (indices : List Nat) : List PointXYZ :=
  indices.filterMap (fun i => cloud[i]?)

/-- Points of `cloud` whose position, counted from `i`, is not listed in `indices`. -/
def dropIndices (indices : List Nat) : Nat → List PointXYZ → List PointXYZ
  | _, [] => []
  | i, p :: ps =>
    if i ∈ indices then dropIndices indices (i + 1) ps
    else p :: dropIndices indices (i + 1) ps

/-- The filter `pcl::ExtractIndices` with `setNegative(true)`: the points whose
index is not listed, in cloud order. -/
def extractNegative (cloud : List PointXYZ) (indices : List Nat) : List PointXYZ :=
  dropIndices indices 0 cloud

/-- The duplicate loop over `found_centers` (lines 371-377): the value of
`valid` after it, `false` as soon as a found center is closer than 0.25. -/
def checkDuplicates (center : PointXYZ) : List PointXYZ → Bool
  | [] => true
  | it :: rest =>
    if sqrtLt (sqDist2D it.x it.y center.x center.y) 0.25 then false
    else checkDuplicates center rest

/-- The erase loop over `centroid_cloud_inliers` (lines 380-389): every point
with `distance_to_cluster < circle_radius_ + 0.02` is erased. -/
def eraseNearCenter (circle_radius_ : ℚ) (center : PointXYZ) : List PointXYZ → List PointXYZ
  | [] => []
  | pt :: rest =>
    if sqrtLt ((pt.x - center.x) ^ 2 + (pt.y - center.y) ^ 2 + (pt.z - center.z) ^ 2)
        (circle_radius_ + 0.02) then
      eraseNearCenter circle_radius_ center rest
    else pt :: eraseNearCenter circle_radius_ center rest

/-- The variables the circle loop updates; `iter` counts the calls of
`segment` made so far and `debug` collects the clouds sent to `debug_pub`. -/
structure LoopState where
  copy_cloud : List PointXYZ
  centroid_cloud_inliers : List PointXYZ
  found_centers : List PointXYZ
  iter : Nat
  debug : List (List PointXYZ)
  deriving DecidableEq, Repr

/-- The values the circle loop reads and does not change. -/
structure LoopEnv where
  circle_fit : Nat → List PointXYZ → FitResult
  edges_centroid : PointXYZ
  zcoord_xyplane : ℚ
  circle_radius_ : ℚ
  centroid_distance_min_ : ℚ
  centroid_distance_max_ : ℚ

/-- The condition of the `while` (line 334). -/
def loopGuard (st : LoopState) : Bool :=
  decide (st.copy_cloud.length + st.centroid_cloud_inliers.length > 3)
    && decide (st.found_centers.length < 4)
    && decide (st.copy_cloud.length ≠ 0)

/-- The body of the `while` (lines 335-409); `none` is the `break` on an empty
inlier set. -/
def loopBody (env : LoopEnv) (st : LoopState) : Option LoopState :=
  let fit := env.circle_fit st.iter st.copy_cloud
  if fit.indices.length = 0 then none
  else
    let circle_cloud := extractIndices st.copy_cloud fit.indices
    let center : PointXYZ := { x := fit.cx, y := fit.cy, z := env.zcoord_xyplane }
    let sq := sqDist2D env.edges_centroid.x env.edges_centroid.y center.x center.y
    let judged : Bool × List PointXYZ :=
      if sqrtLt sq env.centroid_distance_min_ then
        (false, st.centroid_cloud_inliers ++ circle_cloud)
      else if sqrtGt sq env.centroid_distance_max_ then
        (false, st.centroid_cloud_inliers)
      else
        (checkDuplicates center st.found_centers,
          eraseNearCenter env.circle_radius_ center st.centroid_cloud_inliers)
    let valid := judged.1
    some
      { copy_cloud := extractNegative st.copy_cloud fit.indices
        centroid_cloud_inliers := judged.2
        found_centers := if valid then st.found_centers ++ [center] else st.found_centers
        iter := st.iter + 1
        debug := st.debug ++ [circle_cloud] }

/-- One turn of the loop: `none` when the loop is left (guard false or `break`). -/
def loopStep (env : LoopEnv) (st : LoopState) : Option LoopState :=
  if loopGuard st then loopBody env st else none

/-- The state after at most `k` turns of the loop (fewer when it is left earlier). -/
def loopTurns (env : LoopEnv) : Nat → LoopState → LoopState
  | 0, st => st
  | k + 1, st =>
    match loopStep env st with
    | none => st
    | some st1 => loopTurns env k st1

/-- The loop run to its exit with at most `fuel` turns: the state at the exit,
`none` when `fuel` turns did not reach it. -/
def circleLoop (env : LoopEnv) : Nat → LoopState → Option LoopState
  | 0, _ => none
  | fuel + 1, st =>
    match loopStep env st with
    | none => some st
    | some st1 => circleLoop env fuel st1

/-- The state at loop entry: `copy_cloud` is the rotated cloud with every `z`
forced to `zcoord_xyplane` (lines 312-321), nothing found or set aside yet. -/
def loopInit (xy_cloud : List PointXYZ) (zcoord_xyplane : ℚ) : LoopState :=
  { copy_cloud := xy_cloud.map (fun pt => { pt with z := zcoord_xyplane })
    centroid_cloud_inliers := []
    found_centers := []
    iter := 0
    debug := [] }

/-! ## Node state, parameters, frame inputs and outputs -/

/-- The globals the callback and the control loop update. -/
structure Node where
  cumulative_cloud : List PointXYZ
  nFrames : Int
  clouds_proc_ : Int
  clouds_used_ : Int
  deriving DecidableEq, Repr

/-- The parameters read by the callback. -/
structure Params where
  edge_depth_thre_ : ℚ
  edge_knn_radius_ : ℚ
  circle_radius_ : ℚ
  centroid_distance_min_ : ℚ
  centroid_distance_max_ : ℚ
  cluster_size_ : ℚ
  min_centers_found_ : Int

/-- The message `lvt2calib::ClusterCentroids` (header left out). -/
structure ClusterCentroids where
  cluster_iterations : Int
  total_iterations : Int
  cloud : List PointXYZ
  deriving DecidableEq, Repr

/-- The warnings of the callback. -/
inductive Warning where
  | noPlanarModel
  | noPatternEdges
  | tooManyOutliers
  | notEnoughCenters (found : Nat)
  deriving DecidableEq, Repr

/-- What the callback sends out, one constructor for each publisher, and its
warnings. -/
inductive Out where
  | range (cloud : List PointXYZI)
  | cloud_in_range (cloud : List PointType)
  | edges (cloud : List PointType)
  | plane_edges (cloud : List PointType)
  | pattern (cloud : List PointXYZ)
  | rotated_pattern (cloud : List PointXYZ)
  | xy_cloud (cloud : List PointXYZ)
  | debug (cloud : List PointXYZ)
  | cumulative (cloud : List PointXYZ)
  | circle_center (cloud : List PointXYZ)
  | plane_model (coefficients : PlaneCoefficients)
  | centers_centroid (cloud : List PointXYZ)
  | centers (msg : ClusterCentroids)
  | warn (w : Warning)
  deriving DecidableEq, Repr

/-- One synchronized pair of clouds together with what the library calls and
the helpers of other files return on it:
`plane_inliers`/`coefficients` from `plane_segmentation.segment`, `knn` from
`kdtree.nearestKSearch`, `selectWithinDistance` the indices `inliers2`,
`getRings` from `Ouster::getRings`, `rotation` from `getRotationMatrix`,
`cluster_indices` from `euclidean_cluster.extract` and `circle_fit` the result
of the n-th call of `circle_segmentation.segment` on the cloud handed to it. -/
structure Frame where
  velo_cloud_pc : List PointType
  calib_board_pc : List PointXYZI
  plane_inliers : List Nat
  coefficients : PlaneCoefficients
  knn : PointType → Option ℚ
  selectWithinDistance : List PointType → List Nat
  getRings : List PointType → List (List PointType)
  rotation : Affine3
  cluster_indices : List PointXYZ → List (List Nat)
  circle_fit : Nat → List PointXYZ → FitResult

/-- The helper `getCenterClusters(cloud_in, centers_cloud, tolerance, min, max)`
of the package header: from the input cloud, the content of `centers_cloud`
before the call and the three numeric arguments to the content of
`centers_cloud` after the call. -/
abbrev CenterClusters := List PointXYZ → List PointXYZ → ℚ → ℚ → ℚ → List PointXYZ

/-! ## Accumulation (lines 412-457) -/

/-- The comparison `size >= min_centers_found_` of a `size_t` with an `int`:
the `int` is converted to 64-bit unsigned first. -/
def sizeGe (size : Nat) (min_centers_found_ : Int) : Bool :=
  decide ((min_centers_found_ % 18446744073709551616).toNat ≤ size)

/-- The condition of line 417. -/
def commitCheck (found_centers : List PointXYZ) (min_centers_found_ : Int) : Bool :=
  sizeGe found_centers.length min_centers_found_ && decide (found_centers.length < 5)

/-- Lines 419-424: the center rotated back with `rotation.inverse()` and its
`x` recomputed from the plane equation.  This is the value of the code when
`coefficients.a` and the determinant of `rotation` are not zero; where one of
them is zero the code has `inf` or `NaN` and `backProjectChecked` is the
model. -/
def backProject (coefficients : PlaneCoefficients) (rotation : Affine3) (it : PointXYZ) :
    PointXYZ :=
  let center : PointXYZ := { x := it.x, y := it.y, z := it.z }
  let center_rotated_back := transformPoint center rotation.inverse
  { center_rotated_back with
    x := (-coefficients.b * center_rotated_back.y - coefficients.c * center_rotated_back.z
            - coefficients.d) / coefficients.a }

/-- The two clouds the commit loop pushes to. -/
structure CommitAcc where
  cumulative_cloud : List PointXYZ
  circle_center_cloud : List PointXYZ
  deriving DecidableEq, Repr

/-- The commit loop (lines 418-427). -/
def commitCenters (coefficients : PlaneCoefficients) (rotation : Affine3)
    (found_centers : List PointXYZ) (cumulative_cloud : List PointXYZ) : CommitAcc :=
  found_centers.foldl
    (fun acc it =>
      let center_rotated_back := backProject coefficients rotation it
      { cumulative_cloud := acc.cumulative_cloud ++ [center_rotated_back]
        circle_center_cloud := acc.circle_center_cloud ++ [center_rotated_back] })
    { cumulative_cloud := cumulative_cloud, circle_center_cloud := [] }

/-! ## Consensus clustering (lines 466-510) -/

/-- One call of `getCenterClusters`, by its arguments. -/
structure ClusterCall where
  cloud_in : List PointXYZ
  centers_before : List PointXYZ
  tolerance : ℚ
  min_size : ℚ
  max_size : ℚ
  deriving DecidableEq, Repr

/-- The outcome of lines 466-510: the calls of `getCenterClusters` made, the
final `centers_cloud` and what was published. -/
structure Consensus where
  calls : List ClusterCall
  centers_cloud : List PointXYZ
  published : List Out
  deriving DecidableEq, Repr

/-- Lines 466-510.  `nFrames/2` is the truncating division of `int`;
`3.0*nFrames/4.0` is a `double`. -/
def consensus (getCenterClusters : CenterClusters) (cluster_size_ : ℚ) (node : Node)
    (circle_center_cloud : List PointXYZ) : Consensus :=
  let call1 : ClusterCall :=
    { cloud_in := node.cumulative_cloud, centers_before := [], tolerance := cluster_size_
      min_size := ((Int.tdiv node.nFrames 2 : Int) : ℚ), max_size := (node.nFrames : ℚ) }
  let centers1 := getCenterClusters call1.cloud_in call1.centers_before call1.tolerance
    call1.min_size call1.max_size
  let call2 : ClusterCall :=
    { cloud_in := node.cumulative_cloud, centers_before := centers1, tolerance := cluster_size_
      min_size := 3.0 * (node.nFrames : ℚ) / 4.0, max_size := (node.nFrames : ℚ) }
  let second := decide (centers1.length > 4)
  let centers_cloud :=
    if second then
      getCenterClusters call2.cloud_in call2.centers_before call2.tolerance
        call2.min_size call2.max_size
    else centers1
  { calls := if second then [call1, call2] else [call1]
    centers_cloud := centers_cloud
    published :=
      if centers_cloud.length = 4 then
        [Out.centers_centroid centers_cloud,
         Out.centers
           { cluster_iterations := node.clouds_used_
             total_iterations := node.clouds_proc_
             cloud := circle_center_cloud }]
      else [] }

/-- Lines 412-510: the commit check on `found_centers`, the commit and the
consensus clustering. -/
def accumulate (getCenterClusters : CenterClusters) (params : Params)
    (coefficients : PlaneCoefficients) (rotation : Affine3)
    (found_centers : List PointXYZ) (node : Node) : Node × List Out :=
  if commitCheck found_centers params.min_centers_found_ then
    let acc := commitCenters coefficients rotation found_centers node.cumulative_cloud
    let nFrames := node.nFrames + 1
    let node1 : Node :=
      { cumulative_cloud := acc.cumulative_cloud
        nFrames := nFrames
        clouds_proc_ := node.clouds_proc_
        clouds_used_ := nFrames }
    (node1,
      [Out.cumulative acc.cumulative_cloud, Out.circle_center acc.circle_center_cloud,
       Out.plane_model coefficients]
      ++ (consensus getCenterClusters params.cluster_size_ node1 acc.circle_center_cloud).published)
  else
    (node,
      [Out.cumulative node.cumulative_cloud, Out.circle_center [],
       Out.warn (Warning.notEnoughCenters found_centers.length)])

/-! ## The callback (lines 84-511) -/

/-- The centroid of one cluster of `xy_cloud` (lines 286-295). -/
def clusterCentroid (xy_cloud : List PointXYZ) (indices : List Nat) : PointXYZ :=
  let acc : PointXYZ :=
    indices.foldl
      (fun acc i =>
        let p := xy_cloud.getD i { x := 0, y := 0, z := 0 }
        { x := acc.x + p.x, y := acc.y + p.y, z := acc.z + p.z })
      { x := 0, y := 0, z := 0 }
  { x := acc.x / (indices.length : ℚ)
    y := acc.y / (indices.length : ℚ)
    z := acc.z / (indices.length : ℚ) }

/-- The loop of lines 285-297: `edges_centroid` is overwritten by the centroid
of each cluster in turn, so the last cluster decides; it keeps its initial
value `(0,0,0)` when there is no cluster. -/
def edgesCentroid (xy_cloud : List PointXYZ) (cluster_indices : List (List Nat)) : PointXYZ :=
  cluster_indices.foldl (fun _ it => clusterCentroid xy_cloud it) { x := 0, y := 0, z := 0 }

/-- The value of `zcoord_xyplane` (lines 250-266): the `z` of the point
`(0, 0, -d/c)` after the rotation.  This is the value of the code when
`coefficients.c` is not zero; where it is zero the code has `inf` or `NaN` and
`zcoordChecked` is the model. -/
def zcoordXYPlane (coefficients : PlaneCoefficients) (rotation : Affine3) : ℚ :=
  let aux_point : PointXYZ := { x := 0, y := 0, z := -coefficients.d / coefficients.c }
  (transformPoint aux_point rotation).z

/-- The environment of the circle loop for a frame and its candidate cloud. -/
def loopEnvOf (params : Params) (frame : Frame) (circles_cloud : List PointXYZ) : LoopEnv :=
  let xy_cloud := transformPointCloud circles_cloud frame.rotation
  { circle_fit := frame.circle_fit
    edges_centroid := edgesCentroid xy_cloud (frame.cluster_indices xy_cloud)
    zcoord_xyplane := zcoordXYPlane frame.coefficients frame.rotation
    circle_radius_ := params.circle_radius_
    centroid_distance_min_ := params.centroid_distance_min_
    centroid_distance_max_ := params.centroid_distance_max_ }

/-- Lines 231-511: projection, circle loop, accumulation.  `none` when the
circle loop needs more than `fuel` turns. -/
def circleStage (getCenterClusters : CenterClusters) (params : Params) (fuel : Nat)
    (frame : Frame) (circles_cloud : List PointXYZ) (node : Node) : Option (Node × List Out) :=
  let xy_cloud := transformPointCloud circles_cloud frame.rotation
  let env := loopEnvOf params frame circles_cloud
  let aux_point : PointXYZ :=
    { x := 0, y := 0, z := -frame.coefficients.d / frame.coefficients.c }
  let init := loopInit xy_cloud env.zcoord_xyplane
  match circleLoop env fuel init with
  | none => none
  | some st =>
    let res := accumulate getCenterClusters params frame.coefficients frame.rotation
      st.found_centers node
    some (res.1,
      [Out.pattern circles_cloud,
       Out.rotated_pattern (transformPointCloud [aux_point] frame.rotation),
       Out.xy_cloud init.copy_cloud]
      ++ st.debug.map Out.debug ++ res.2)

/-- The function `callback`.  `clouds_proc_` is incremented first (line 92);
the frame is dropped when the plane fit has no inlier (line 124), when
`edges_cloud` is empty (line 177) and when `circles_cloud` has more than
`ringsWithCircle*4` points (line 225).  The removal of NaN points (lines
143-151) keeps every point of an exact-valued cloud. -/
def callback (getCenterClusters : CenterClusters) (params : Params) (fuel : Nat)
    (frame : Frame) (node : Node) : Option (Node × List Out) :=
  let node1 : Node := { node with clouds_proc_ := node.clouds_proc_ + 1 }
  let out1 := [Out.range frame.calib_board_pc, Out.cloud_in_range frame.velo_cloud_pc]
  if frame.plane_inliers.length = 0 then
    some (node1, out1 ++ [Out.warn Warning.noPlanarModel])
  else
    let edges_cloud :=
      edgeDetector frame.knn params.edge_knn_radius_ params.edge_depth_thre_ frame.velo_cloud_pc
    if edges_cloud.length = 0 then
      some (node1, out1 ++ [Out.warn Warning.noPatternEdges])
    else
      let inliers2 := frame.selectWithinDistance edges_cloud
      let pattern_cloud := inliers2.filterMap (fun i => edges_cloud[i]?)
      let out2 := out1 ++ [Out.edges edges_cloud, Out.plane_edges pattern_cloud]
      let rings := ringFilter (frame.getRings pattern_cloud)
      if rings.circles_cloud.length > rings.ringsWithCircle * 4 then
        some (node1, out2 ++ [Out.warn Warning.tooManyOutliers])
      else
        match circleStage getCenterClusters params fuel frame rings.circles_cloud node1 with
        | none => none
        | some res => some (res.1, out2 ++ res.2)

/-! ## The control loop of `main` (lines 582-617) -/

/-- The local flags of `main`. -/
structure Flags where
  end_process : Bool
  do_acc_boards : Bool
  deriving DecidableEq, Repr

/-- What one pass over a loop head and the two `ros::param::get` calls after
it observes: the value of `ros::ok()` and, for each parameter, its value when
it is set (`get` leaves the variable as it is when the parameter is not set). -/
structure Poll where
  ok : Bool
  end_process : Option Bool
  do_acc_boards : Option Bool
  deriving DecidableEq, Repr

/-- The two `ros::param::get` calls. -/
def readParams (flags : Flags) (poll : Poll) : Flags :=
  { end_process := poll.end_process.getD flags.end_process
    do_acc_boards := poll.do_acc_boards.getD flags.do_acc_boards }

/-- The inner `while (!do_acc_boards && ros::ok())` (lines 598-608) over the
polls still to come: the flags at its exit and the polls left, `none` when the
polls run out while it is still waiting. -/
def pausedLoop : List Poll → Flags → Option (Flags × List Poll)
  | [], flags => if flags.do_acc_boards then some (flags, []) else none
  | poll :: rest, flags =>
    if flags.do_acc_boards then some (flags, poll :: rest)
    else if poll.ok then
      let flags1 := readParams flags poll
      if flags1.end_process then some (flags1, rest)
      else pausedLoop rest flags1
    else some (flags, rest)

/-- Where one turn of the outer loop stands just before `ros::spinOnce()`. -/
inductive Control where
  | stopped (node : Node)
  | waiting
  | running (node : Node) (flags : Flags) (rest : List Poll)
  deriving DecidableEq, Repr

/-- The state written by lines 611-614. -/
def resetNode (_node : Node) : Node :=
  { cumulative_cloud := [], nFrames := 0, clouds_proc_ := 0, clouds_used_ := 0 }

/-- One turn of the outer `while (ros::ok())` up to, and not including,
`ros::spinOnce()` (lines 585-615); `poll` is observed at its head. -/
def controlTurn (node : Node) (flags : Flags) (poll : Poll) (rest : List Poll) : Control :=
  if poll.ok then
    let flags1 := readParams flags poll
    if flags1.end_process then Control.stopped node
    else if !flags1.do_acc_boards then
      match pausedLoop rest flags1 with
      | none => Control.waiting
      | some (flags2, rest2) =>
        if flags2.end_process then Control.stopped node
        else Control.running (resetNode node) flags2 rest2
    else Control.running node flags1 rest
  else Control.stopped node

/-! ## Quotients that are not numbers (lines 255 and 424, `rotation.inverse()`) -/

/-- The quotient `n / d` of the code where it is a number: with `d = 0` the
code computes `inf` or `NaN`, and there is `none`. -/
def quotient (n d : ℚ) : Option ℚ :=
  if d = 0 then none else some (n / d)

/-- The method `rotation.inverse()` where it is a matrix of numbers: the
inverse divides by the determinant of the linear part. -/
def Affine3.inverseChecked (r : Affine3) : Option Affine3 :=
  if r.det = 0 then none else some r.inverse

/-- The value of `zcoord_xyplane` (lines 250-266) with the quotient `-d/c` of
line 255 checked: `none` when `c = 0`. -/
def zcoordChecked (coefficients : PlaneCoefficients) (rotation : Affine3) : Option ℚ :=
  match quotient (-coefficients.d) coefficients.c with
  | none => none
  | some z =>
    let aux_point : PointXYZ := { x := 0, y := 0, z := z }
    some (transformPoint aux_point rotation).z

/-- Lines 419-424 with `rotation.inverse()` and the quotient of line 424
checked: the pushed point when all its coordinates are numbers, `none` when
the determinant of `rotation` or `coefficients.a` is zero. -/
def backProjectChecked (coefficients : PlaneCoefficients) (rotation : Affine3)
    (it : PointXYZ) : Option PointXYZ :=
  let center : PointXYZ := { x := it.x, y := it.y, z := it.z }
  match rotation.inverseChecked with
  | none => none
  | some inverse =>
    let center_rotated_back := transformPoint center inverse
    match quotient
        (-coefficients.b * center_rotated_back.y - coefficients.c * center_rotated_back.z
          - coefficients.d) coefficients.a with
    | none => none
    | some x => some { center_rotated_back with x := x }

/-- The commit loop (lines 418-427) with every pushed point checked: `none` as
soon as a pushed point has a coordinate that is not a number. -/
def commitCentersChecked (coefficients : PlaneCoefficients) (rotation : Affine3)
    (found_centers : List PointXYZ) (cumulative_cloud : List PointXYZ) : Option CommitAcc :=
  found_centers.foldl
    (fun acc it =>
      match acc, backProjectChecked coefficients rotation it with
      | some acc, some center_rotated_back =>
        some
          { cumulative_cloud := acc.cumulative_cloud ++ [center_rotated_back]
            circle_center_cloud := acc.circle_center_cloud ++ [center_rotated_back] }
      | _, _ => none)
    (some { cumulative_cloud := cumulative_cloud, circle_center_cloud := [] })

/-! ## Reference descriptions used in the statements -/

/-- Whether two points are within the clustering tolerance of each other. -/
def withinTolerance (tolerance : ℚ) (p q : PointXYZ) : Bool :=
  decide ((p.x - q.x) ^ 2 + (p.y - q.y) ^ 2 + (p.z - q.z) ^ 2 ≤ tolerance ^ 2)

/-- A cluster grown by the points of `rest` within tolerance of one of its
members, as long as there are any: the cluster and the points left over. -/
def growCluster (tolerance : ℚ) :
    Nat → List PointXYZ → List PointXYZ → List PointXYZ × List PointXYZ
  | 0, cluster, rest => (cluster, rest)
  | fuel + 1, cluster, rest =>
    let near := rest.filter (fun q => cluster.any (fun p => withinTolerance tolerance p q))
    if near.length = 0 then (cluster, rest)
    else
      growCluster tolerance fuel (cluster ++ near)
        (rest.filter (fun q => !cluster.any (fun p => withinTolerance tolerance p q)))

/-- The Euclidean clusters of a cloud, each grown from the first point not yet
clustered. -/
def euclideanClusters (tolerance : ℚ) : Nat → List PointXYZ → List (List PointXYZ)
  | 0, _ => []
  | _ + 1, [] => []
  | fuel + 1, p :: rest =>
    let grown := growCluster tolerance rest.length [p] rest
    grown.1 :: euclideanClusters tolerance fuel grown.2

/-- The centroid of a cluster. -/
def centroidOf (cluster : List PointXYZ) : PointXYZ :=
  { x := (cluster.map (fun p => p.x)).sum / (cluster.length : ℚ)
    y := (cluster.map (fun p => p.y)).sum / (cluster.length : ℚ)
    z := (cluster.map (fun p => p.z)).sum / (cluster.length : ℚ) }

/-- Modelled from the spec: the helper `getCenterClusters`, declared in a
header of the package that is not part of this file.  Following section 4.10,
the input cloud is Euclidean-clustered with the clustering tolerance, a
cluster counts when its number of points lies between the two support bounds,
and `centers_cloud` receives one center, the centroid, for each such cluster. -/
def getCenterClustersSpec : CenterClusters :=
  fun cloud_in _centers_before tolerance min_size max_size =>
    ((euclideanClusters tolerance cloud_in.length cloud_in).filter
      (fun cluster =>
        decide (min_size ≤ (cluster.length : ℚ)) && decide ((cluster.length : ℚ) ≤ max_size))).map
      centroidOf

/-- The interior of a scan line as the specification words it: nothing for a
line of fewer than 4 points, otherwise the line without its first and its last
point. -/
def ringInterior (ring : List PointType) : List PointXYZ :=
  if ring.length < 4 then []
  else ((ring.drop 1).take (ring.length - 2)).map toXYZ

/-- The verdict of one turn on the fit it receives: accepted when the fit is
neither too central nor too far and no found center is closer than 0.25. -/
def accepts (env : LoopEnv) (st : LoopState) : Bool :=
  let fit := env.circle_fit st.iter st.copy_cloud
  let sq := sqDist2D env.edges_centroid.x env.edges_centroid.y fit.cx fit.cy
  !sqrtLt sq env.centroid_distance_min_ && !sqrtGt sq env.centroid_distance_max_
    && checkDuplicates { x := fit.cx, y := fit.cy, z := env.zcoord_xyplane } st.found_centers

/-- The number of turns of the loop completed when at most `k` are tried. -/
def completedTurns (env : LoopEnv) : Nat → LoopState → Nat
  | 0, _ => 0
  | k + 1, st =>
    match loopStep env st with
    | none => 0
    | some st1 => completedTurns env k st1 + 1

/-- The number of completed turns, of at most `k` tried, whose fit was
accepted. -/
def acceptedTurns (env : LoopEnv) : Nat → LoopState → Nat
  | 0, _ => 0
  | k + 1, st =>
    match loopStep env st with
    | none => 0
    | some st1 => (if accepts env st then 1 else 0) + acceptedTurns env k st1

/-- The cloud with the points at the listed positions left out, position by
position. -/
def withoutPositions (cloud : List PointXYZ) (indices : List Nat) : List PointXYZ :=
  ((List.range cloud.length).filter (fun j => decide (j ∉ indices))).filterMap
    (fun j => cloud[j]?)

/-! ## Concrete inputs -/

/-- A board cloud of one point at the origin. -/
def boardAtOrigin : List PointXYZI :=
  [{ x := 0, y := 0, z := 0, intensity := 0 }]

/-- A sweep point at squared distance 1 from the origin, intensity 5. -/
def sweepPointAtOne : PointType :=
  { x := 1, y := 0, z := 0, intensity := 5, ring := 0 }

/-- A sweep point at squared distance 4 from the origin, intensity 5. -/
def sweepPointAtTwo : PointType :=
  { x := 2, y := 0, z := 0, intensity := 5, ring := 0 }

/-- The point of a scan line at abscissa `k`. -/
def linePoint (k : ℚ) : PointType :=
  { x := k, y := 0, z := 0, intensity := 0, ring := 7 }

/-- The rotation taking the normal `(1,0,0)` of the plane `x = 0` to `(0,0,-1)`. -/
def rotationXToMinusZ : Affine3 :=
  { m00 := 0, m01 := 0, m02 := 1
    m10 := 0, m11 := 1, m12 := 0
    m20 := -1, m21 := 0, m22 := 0
    t0 := 0, t1 := 0, t2 := 0 }

/-- The plane `x = 0`. -/
def planeXZero : PlaneCoefficients :=
  { a := 1, b := 0, c := 0, d := 0 }

/-- A node with one committed frame of four centers on the plane `x = 0` and
two frames counted in `clouds_proc_`. -/
def nodeAfterOneFrame : Node :=
  { cumulative_cloud :=
      [{ x := 0, y := 0, z := 0 }, { x := 0, y := 1, z := 0 },
       { x := 0, y := 0, z := 1 }, { x := 0, y := 1, z := 1 }]
    nFrames := 1
    clouds_proc_ := 2
    clouds_used_ := 1 }

/-- Four accepted centers in the plane-aligned frame. -/
def fourFoundCenters : List PointXYZ :=
  [{ x := 0, y := 0, z := 0 }, { x := 0, y := 1, z := 0 },
   { x := 1, y := 0, z := 0 }, { x := 1, y := 1, z := 0 }]

/-- Three accepted centers in the plane-aligned frame. -/
def threeFoundCenters : List PointXYZ :=
  [{ x := 0, y := 0, z := 0 }, { x := 0, y := 1, z := 0 }, { x := 1, y := 0, z := 0 }]

/-- Parameters with the given `min_centers_found`. -/
def paramsWithMin (min_centers_found_ : Int) : Params :=
  { edge_depth_thre_ := 0
    edge_knn_radius_ := 1
    circle_radius_ := 0.12
    centroid_distance_min_ := 0.15
    centroid_distance_max_ := 0.8
    cluster_size_ := 0.02
    min_centers_found_ := min_centers_found_ }

/-- A frame whose plane fit succeeds and whose sweep holds a single point far
from the board, so that no edge point is found. -/
def frameWithoutEdges : Frame :=
  { velo_cloud_pc := [sweepPointAtTwo]
    calib_board_pc := boardAtOrigin
    plane_inliers := [0]
    coefficients := planeXZero
    knn := nearestKSearch boardAtOrigin
    selectWithinDistance := fun _ => []
    getRings := fun _ => []
    rotation := rotationXToMinusZ
    cluster_indices := fun _ => []
    circle_fit := fun _ _ => { indices := [], cx := 0, cy := 0, radius := 0 } }

/-- A poll that sees the node alive and the given value of `/do_acc_boards`,
with `/end_process` not set. -/
def pollAcc (do_acc_boards : Bool) : Poll :=
  { ok := true, end_process := none, do_acc_boards := some do_acc_boards }

/-- Eight candidate points of a rotated cloud. -/
def candidateCloud : List PointXYZ :=
  [{ x := 1, y := 0.12, z := 0 }, { x := 1.12, y := 0, z := 0 }, { x := 0.88, y := 0, z := 0 },
   { x := 1, y := -0.12, z := 0 }, { x := 1, y := 0.5, z := 0 }, { x := 1, y := 1.12, z := 0 },
   { x := 1.12, y := 1, z := 0 }, { x := 0.88, y := 1, z := 0 }]

/-- A circle loop whose first fit is a circle at `(1,0)`, whose second fit is
a circle at `(1.1,0)`, 0.1 away from the first, and whose later fits sit on
the pattern centroid `(1,0.5)`. -/
def loopEnvExample : LoopEnv :=
  { circle_fit := fun n _ =>
      if n = 0 then { indices := [0, 1, 2], cx := 1, cy := 0, radius := 0.12 }
      else if n = 1 then { indices := [0], cx := 1.1, cy := 0, radius := 0.12 }
      else { indices := [0], cx := 1, cy := 0.5, radius := 0.12 }
    edges_centroid := { x := 1, y := 0.5, z := 0 }
    zcoord_xyplane := 0
    circle_radius_ := 0.12
    centroid_distance_min_ := 0.15
    centroid_distance_max_ := 0.8 }

/-- A circle loop whose every fit has one inlier and a center far from the
pattern centroid `(1,0.5)`. -/
def loopEnvFarFits : LoopEnv :=
  { circle_fit := fun _ _ => { indices := [0], cx := 5, cy := 5, radius := 0.12 }
    edges_centroid := { x := 1, y := 0.5, z := 0 }
    zcoord_xyplane := 0
    circle_radius_ := 0.12
    centroid_distance_min_ := 0.15
    centroid_distance_max_ := 0.8 }

/-- A circle loop whose first fit sits on the pattern centroid `(1,0.5)`, with
the points at positions 0 and 4 as inliers, and whose second fit is a circle
at `(1,0)`; later fits find nothing. -/
def loopEnvReclaim : LoopEnv :=
  { circle_fit := fun n _ =>
      if n = 0 then { indices := [0, 4], cx := 1, cy := 0.5, radius := 0.12 }
      else if n = 1 then { indices := [0, 1, 2], cx := 1, cy := 0, radius := 0.12 }
      else { indices := [], cx := 0, cy := 0, radius := 0 }
    edges_centroid := { x := 1, y := 0.5, z := 0 }
    zcoord_xyplane := 0
    circle_radius_ := 0.12
    centroid_distance_min_ := 0.15
    centroid_distance_max_ := 0.8 }

/-- A circle loop whose every fit takes the first point of a non-empty cloud
as its only inlier, for a circle at `(1,0)`. -/
def loopEnvFirstPoint : LoopEnv :=
  { circle_fit := fun _ cloud =>
      match cloud with
      | [] => { indices := [], cx := 1, cy := 0, radius := 0.12 }
      | _ :: _ => { indices := [0], cx := 1, cy := 0, radius := 0.12 }
    edges_centroid := { x := 1, y := 0.5, z := 0 }
    zcoord_xyplane := 0
    circle_radius_ := 0.12
    centroid_distance_min_ := 0.15
    centroid_distance_max_ := 0.8 }

/-- Three candidate points on the circle of radius 0.12 around `(1,0)`. -/
def threeCandidates : List PointXYZ :=
  [{ x := 1, y := 0.12, z := 0 }, { x := 1.12, y := 0, z := 0 }, { x := 0.88, y := 0, z := 0 }]

/-- The plane `(3/5) y + (4/5) z - 2 = 0`, whose first coefficient is zero. -/
def planeFacingYZ : PlaneCoefficients :=
  { a := 0, b := 3/5, c := 4/5, d := -2 }

/-- The rotation about the `x` axis taking the normal `(0, 3/5, 4/5)` of
`planeFacingYZ` to `(0,0,-1)`. -/
def rotationAboutX : Affine3 :=
  { m00 := 1, m01 := 0, m02 := 0
    m10 := 0, m11 := -4/5, m12 := 3/5
    m20 := 0, m21 := -3/5, m22 := -4/5
    t0 := 0, t1 := 0, t2 := 0 }

/-- The plane `(3/5) x + (4/5) z - 2 = 0`. -/
def planeFacingXZ : PlaneCoefficients :=
  { a := 3/5, b := 0, c := 4/5, d := -2 }

/-- The rotation about the `y` axis taking the normal `(3/5, 0, 4/5)` of
`planeFacingXZ` to `(0,0,-1)`. -/
def rotationAboutY : Affine3 :=
  { m00 := -4/5, m01 := 0, m02 := 3/5
    m10 := 0, m11 := 1, m12 := 0
    m20 := -3/5, m21 := 0, m22 := -4/5
    t0 := 0, t1 := 0, t2 := 0 }

/-- Four accepted centers of a sweep of `planeFacingXZ`, in the plane-aligned
frame, where the plane is `z = -2`. -/
def fourAlignedCenters : List PointXYZ :=
  [{ x := 1, y := 1, z := -2 }, { x := 1, y := 2, z := -2 },
   { x := -4, y := 1, z := -2 }, { x := -4, y := 2, z := -2 }]

/-- A node with three committed frames on `planeFacingXZ`: the centers
`A = (2/5,1,11/5)` and `B = (2/5,2,11/5)` in every frame, `C = (22/5,1,-4/5)`
in the first and the third, `D = (22/5,2,-4/5)` in the second and the third,
and a false center `(-18/5,1,26/5)` in the first and the second. -/
def nodeAfterThreeFrames : Node :=
  { cumulative_cloud :=
      [{ x := 2/5, y := 1, z := 11/5 }, { x := 2/5, y := 2, z := 11/5 },
       { x := 22/5, y := 1, z := -4/5 }, { x := -18/5, y := 1, z := 26/5 },
       { x := 2/5, y := 1, z := 11/5 }, { x := 2/5, y := 2, z := 11/5 },
       { x := 22/5, y := 2, z := -4/5 }, { x := -18/5, y := 1, z := 26/5 },
       { x := 2/5, y := 1, z := 11/5 }, { x := 2/5, y := 2, z := 11/5 },
       { x := 22/5, y := 1, z := -4/5 }, { x := 22/5, y := 2, z := -4/5 }]
    nFrames := 3
    clouds_proc_ := 4
    clouds_used_ := 3 }

/-! ## Edge detection: properties -/

theorem edgeDetector_eq_filter (knn : PointType → Option ℚ) (radius thre : ℚ)
    (cloud : List PointType) :
    edgeDetector knn radius thre cloud
      = cloud.filter (fun pt =>
          match knn pt with
          | some d => decide (d ≤ radius) && decide (pt.intensity > thre)
          | none => false) := by
  induction cloud with
  | nil => rfl
  | cons pt rest ih =>
    unfold edgeDetector
    cases h : knn pt with
    | none => simp [List.filter, h, ih]
    | some d =>
      by_cases h1 : d ≤ radius <;> by_cases h2 : pt.intensity > thre <;>
        simp [List.filter, h, h1, h2, ih]

/-- Claim C10, as the code has it: a point of the sweep whose 1-NN search
returns the squared distance `d` is in the edge cloud iff `d` is at most the
edge radius (equality included) and its intensity strictly exceeds the
threshold. -/
theorem edgeDetector_mem_iff (knn : PointType → Option ℚ) (radius thre : ℚ)
    (cloud : List PointType) (pt : PointType) (d : ℚ)
    (hmem : pt ∈ cloud) (hnn : knn pt = some d) :
    pt ∈ edgeDetector knn radius thre cloud ↔ (d ≤ radius ∧ pt.intensity > thre) := by
  rw [edgeDetector_eq_filter, List.mem_filter]
  simp [hmem, hnn]

/-- An instance: a point at squared distance 1 with
radius 1. -/
theorem edgeDetector_mem_iff_witness :
    sweepPointAtOne ∈ [sweepPointAtOne, sweepPointAtTwo]
      ∧ nearestKSearch boardAtOrigin sweepPointAtOne = some 1
      ∧ (sweepPointAtOne ∈
            edgeDetector (nearestKSearch boardAtOrigin) 1 0 [sweepPointAtOne, sweepPointAtTwo]
          ↔ ((1 : ℚ) ≤ 1 ∧ sweepPointAtOne.intensity > 0)) :=
  ⟨by decide!, by decide!,
   edgeDetector_mem_iff (nearestKSearch boardAtOrigin) 1 0 [sweepPointAtOne, sweepPointAtTwo]
     sweepPointAtOne 1 (by decide!) (by decide!)⟩

/-- Claim C10 fails as stated: with edge radius 1 and threshold 0, the point at
squared distance exactly 1 (not strictly below the radius) is an edge point. -/
theorem edgeDetector_equal_radius_counterexample :
    nearestKSearch boardAtOrigin sweepPointAtOne = some 1
      ∧ ¬ ((1 : ℚ) < 1)
      ∧ sweepPointAtOne.intensity > 0
      ∧ edgeDetector (nearestKSearch boardAtOrigin) 1 0 [sweepPointAtOne, sweepPointAtTwo]
          = [sweepPointAtOne] := by
  decide!

/-! ## Ring filter: properties -/

theorem foldl_push_eq_append (ring : List PointType) (cloud : List PointXYZ) :
    ring.foldl (fun cloud pt => cloud ++ [toXYZ pt]) cloud = cloud ++ ring.map toXYZ := by
  induction ring generalizing cloud with
  | nil => simp
  | cons pt rest ih => simp [List.foldl, ih]

theorem tail_dropLast_eq (ring : List PointType) :
    ring.tail.dropLast = (ring.drop 1).take (ring.length - 2) := by
  cases ring with
  | nil => rfl
  | cons pt rest => simp [List.dropLast_eq_take]

theorem ringStep_circles_cloud (acc : RingAcc) (ring : List PointType) :
    (ringStep acc ring).circles_cloud = acc.circles_cloud ++ ringInterior ring := by
  unfold ringStep ringInterior
  by_cases h : ring.length < 4
  · simp [h]
  · simp only [h, if_false, foldl_push_eq_append, tail_dropLast_eq]

theorem foldl_ringStep_circles_cloud (rings2 : List (List PointType)) (acc : RingAcc) :
    (rings2.foldl ringStep acc).circles_cloud
      = acc.circles_cloud ++ rings2.flatMap ringInterior := by
  induction rings2 generalizing acc with
  | nil => simp
  | cons ring rest ih =>
    simp only [List.foldl, ih, ringStep_circles_cloud, List.flatMap_cons, List.append_assoc]

/-- Claim C8: the candidate cloud is the concatenation, in scan-line order, of
the interiors of the scan lines; a line of fewer than 4 points contributes
nothing, and a line of `n >= 4` points contributes its `n - 2` interior points
in order (position `i` of the contribution is position `i + 1` of the line, so
neither position `0` nor position `n - 1` is taken). -/
theorem ringFilter_circles_cloud (rings2 : List (List PointType)) :
    (ringFilter rings2).circles_cloud = rings2.flatMap ringInterior
      ∧ (∀ ring : List PointType, ring.length < 4 → ringInterior ring = [])
      ∧ (∀ ring : List PointType, 4 ≤ ring.length →
          (ringInterior ring).length = ring.length - 2
            ∧ ∀ i, i < ring.length - 2 →
                (ringInterior ring)[i]? = (ring[i + 1]?).map toXYZ) := by
  refine ⟨?_, ?_, ?_⟩
  · unfold ringFilter
    rw [foldl_ringStep_circles_cloud]
    simp
  · intro ring h
    simp [ringInterior, h]
  · intro ring h
    have h4 : ¬ ring.length < 4 := by omega
    refine ⟨?_, ?_⟩
    · simp only [ringInterior, h4, if_false, List.length_map, List.length_take,
        List.length_drop]
      omega
    · intro i hi
      simp only [ringInterior, h4, if_false, List.getElem?_map, List.getElem?_take,
        List.getElem?_drop]
      simp [hi, Nat.add_comm]

/-- An instance: a line of five points and a line of
three points. -/
theorem ringFilter_circles_cloud_witness :
    (ringFilter
        [[linePoint 0, linePoint 1, linePoint 2, linePoint 3, linePoint 4],
         [linePoint 5, linePoint 6, linePoint 7]]).circles_cloud
        = [toXYZ (linePoint 1), toXYZ (linePoint 2), toXYZ (linePoint 3)]
      ∧ ringInterior [linePoint 5, linePoint 6, linePoint 7] = []
      ∧ (ringInterior
          [linePoint 0, linePoint 1, linePoint 2, linePoint 3, linePoint 4]).length = 5 - 2 := by
  have h := ringFilter_circles_cloud
    [[linePoint 0, linePoint 1, linePoint 2, linePoint 3, linePoint 4],
     [linePoint 5, linePoint 6, linePoint 7]]
  refine ⟨?_, h.2.1 _ (by decide), (h.2.2 _ (by decide)).1⟩
  rw [h.1]
  decide!

/-! ## Back projection: properties -/

theorem commitCenters_foldl (coefficients : PlaneCoefficients) (rotation : Affine3)
    (found_centers : List PointXYZ) (acc : CommitAcc) :
    found_centers.foldl
        (fun acc it =>
          let center_rotated_back := backProject coefficients rotation it
          ({ cumulative_cloud := acc.cumulative_cloud ++ [center_rotated_back]
             circle_center_cloud := acc.circle_center_cloud ++ [center_rotated_back] } :
            CommitAcc))
        acc
      = { cumulative_cloud :=
            acc.cumulative_cloud ++ found_centers.map (backProject coefficients rotation)
          circle_center_cloud :=
            acc.circle_center_cloud ++ found_centers.map (backProject coefficients rotation) } := by
  induction found_centers generalizing acc with
  | nil => simp
  | cons it rest ih => simp [List.foldl, ih]

theorem commitCenters_eq (coefficients : PlaneCoefficients) (rotation : Affine3)
    (found_centers cumulative_cloud : List PointXYZ) :
    commitCenters coefficients rotation found_centers cumulative_cloud
      = { cumulative_cloud :=
            cumulative_cloud ++ found_centers.map (backProject coefficients rotation)
          circle_center_cloud := found_centers.map (backProject coefficients rotation) } := by
  unfold commitCenters
  rw [commitCenters_foldl]
  simp

theorem backProject_plane_equation (coefficients : PlaneCoefficients) (rotation : Affine3)
    (it : PointXYZ) (ha : coefficients.a ≠ 0) :
    coefficients.a * (backProject coefficients rotation it).x
      + coefficients.b * (backProject coefficients rotation it).y
      + coefficients.c * (backProject coefficients rotation it).z + coefficients.d = 0 := by
  simp only [backProject]
  field_simp
  ring

theorem quotient_of_ne_zero (n d : ℚ) (hd : d ≠ 0) : quotient n d = some (n / d) := by
  simp [quotient, hd]

theorem quotient_zero (n : ℚ) : quotient n 0 = none := by
  simp [quotient]

theorem zcoordChecked_of_ne_zero (coefficients : PlaneCoefficients) (rotation : Affine3)
    (hc : coefficients.c ≠ 0) :
    zcoordChecked coefficients rotation = some (zcoordXYPlane coefficients rotation) := by
  simp [zcoordChecked, zcoordXYPlane, quotient, hc]

theorem backProjectChecked_of_ne_zero (coefficients : PlaneCoefficients) (rotation : Affine3)
    (it : PointXYZ) (ha : coefficients.a ≠ 0) (hdet : rotation.det ≠ 0) :
    backProjectChecked coefficients rotation it
      = some (backProject coefficients rotation it) := by
  simp [backProjectChecked, backProject, Affine3.inverseChecked, quotient, ha, hdet]

theorem backProjectChecked_of_zero (coefficients : PlaneCoefficients) (rotation : Affine3)
    (it : PointXYZ) (ha : coefficients.a = 0) :
    backProjectChecked coefficients rotation it = none := by
  unfold backProjectChecked
  simp only [ha, quotient_zero]
  split <;> rfl

theorem commitCentersChecked_foldl (coefficients : PlaneCoefficients) (rotation : Affine3)
    (ha : coefficients.a ≠ 0) (hdet : rotation.det ≠ 0)
    (found_centers : List PointXYZ) (acc : CommitAcc) :
    found_centers.foldl
        (fun acc it =>
          match acc, backProjectChecked coefficients rotation it with
          | some acc, some center_rotated_back =>
            some
              ({ cumulative_cloud := acc.cumulative_cloud ++ [center_rotated_back]
                 circle_center_cloud := acc.circle_center_cloud ++ [center_rotated_back] } :
                CommitAcc)
          | _, _ => none)
        (some acc)
      = some
          { cumulative_cloud :=
              acc.cumulative_cloud ++ found_centers.map (backProject coefficients rotation)
            circle_center_cloud :=
              acc.circle_center_cloud
                ++ found_centers.map (backProject coefficients rotation) } := by
  induction found_centers generalizing acc with
  | nil => simp
  | cons it rest ih =>
    simp only [List.foldl, backProjectChecked_of_ne_zero coefficients rotation it ha hdet]
    rw [ih]
    simp

theorem commitCentersChecked_of_ne_zero (coefficients : PlaneCoefficients)
    (rotation : Affine3) (ha : coefficients.a ≠ 0) (hdet : rotation.det ≠ 0)
    (found_centers cumulative_cloud : List PointXYZ) :
    commitCentersChecked coefficients rotation found_centers cumulative_cloud
      = some (commitCenters coefficients rotation found_centers cumulative_cloud) := by
  unfold commitCentersChecked
  rw [commitCentersChecked_foldl coefficients rotation ha hdet, commitCenters_eq]
  simp

/-- Claim C7, for a plane with `a ≠ 0` and `c ≠ 0` and an invertible rotation,
where the quotients of lines 255 and 424 and `rotation.inverse()` are numbers:
`zcoord_xyplane` is a number, the point the commit loop pushes for an accepted
center has numbers for coordinates, satisfies `a x + b y + c z + d = 0`
exactly and has the `y` and `z` of the center rotated back; so a commit
appends one such point for each accepted center, in order, and every point it
appends lies on the fitted plane. -/
theorem backProject_on_plane (coefficients : PlaneCoefficients) (rotation : Affine3)
    (ha : coefficients.a ≠ 0) (hc : coefficients.c ≠ 0) (hdet : rotation.det ≠ 0)
    (it : PointXYZ) (found_centers cumulative_cloud : List PointXYZ) :
    (∃ z : ℚ, zcoordChecked coefficients rotation = some z)
      ∧ (∃ inverse : Affine3, ∃ p : PointXYZ,
          rotation.inverseChecked = some inverse
            ∧ backProjectChecked coefficients rotation it = some p
            ∧ coefficients.a * p.x + coefficients.b * p.y + coefficients.c * p.z
                + coefficients.d = 0
            ∧ p.y = (transformPoint it inverse).y
            ∧ p.z = (transformPoint it inverse).z
            ∧ backProject coefficients rotation it = p)
      ∧ ∃ appended : List PointXYZ,
          commitCentersChecked coefficients rotation found_centers cumulative_cloud
              = some { cumulative_cloud := cumulative_cloud ++ appended
                       circle_center_cloud := appended }
            ∧ commitCenters coefficients rotation found_centers cumulative_cloud
              = { cumulative_cloud := cumulative_cloud ++ appended
                  circle_center_cloud := appended }
            ∧ appended.length = found_centers.length
            ∧ (∀ i : Nat, appended[i]?
                = (found_centers[i]?).bind (backProjectChecked coefficients rotation))
            ∧ ∀ p ∈ appended,
                coefficients.a * p.x + coefficients.b * p.y + coefficients.c * p.z
                  + coefficients.d = 0 := by
  refine ⟨⟨_, zcoordChecked_of_ne_zero coefficients rotation hc⟩, ?_, ?_⟩
  · refine ⟨rotation.inverse, backProject coefficients rotation it, ?_,
      backProjectChecked_of_ne_zero coefficients rotation it ha hdet,
      backProject_plane_equation coefficients rotation it ha, rfl, rfl, rfl⟩
    simp [Affine3.inverseChecked, hdet]
  · refine ⟨found_centers.map (backProject coefficients rotation), ?_, ?_, ?_, ?_, ?_⟩
    · rw [commitCentersChecked_of_ne_zero coefficients rotation ha hdet, commitCenters_eq]
    · rw [commitCenters_eq]
    · simp
    · intro i
      rw [List.getElem?_map]
      cases found_centers[i]? with
      | none => rfl
      | some q =>
        simp only [Option.map_some', Option.some_bind]
        rw [backProjectChecked_of_ne_zero coefficients rotation q ha hdet]
    · intro p hp
      obtain ⟨q, _, rfl⟩ := List.mem_map.mp hp
      exact backProject_plane_equation coefficients rotation q ha

/-- An instance: the plane `(3/5) x + (4/5) z - 2 = 0` with its alignment
rotation; `zcoord_xyplane` is `-2`, and the accepted center `(1,1,-2)` is
pushed as `(2/5, 1, 11/5)`. -/
theorem backProject_on_plane_witness :
    transformPoint { x := 3/5, y := 0, z := 4/5 } rotationAboutY = { x := 0, y := 0, z := -1 }
      ∧ zcoordChecked planeFacingXZ rotationAboutY = some (-2)
      ∧ backProjectChecked planeFacingXZ rotationAboutY { x := 1, y := 1, z := -2 }
          = some { x := 2/5, y := 1, z := 11/5 }
      ∧ ∃ appended : List PointXYZ,
          commitCentersChecked planeFacingXZ rotationAboutY fourAlignedCenters []
              = some { cumulative_cloud := [] ++ appended, circle_center_cloud := appended }
            ∧ commitCenters planeFacingXZ rotationAboutY fourAlignedCenters []
              = { cumulative_cloud := [] ++ appended, circle_center_cloud := appended }
            ∧ appended.length = fourAlignedCenters.length
            ∧ (∀ i : Nat, appended[i]?
                = (fourAlignedCenters[i]?).bind
                    (backProjectChecked planeFacingXZ rotationAboutY))
            ∧ ∀ p ∈ appended,
                planeFacingXZ.a * p.x + planeFacingXZ.b * p.y + planeFacingXZ.c * p.z
                  + planeFacingXZ.d = 0 :=
  ⟨by decide!, by decide!, by decide!,
   (backProject_on_plane planeFacingXZ rotationAboutY (by decide!) (by decide!) (by decide!)
      { x := 1, y := 1, z := -2 } fourAlignedCenters []).2.2⟩

/-- Claim C7 fails as stated for a plane with `a = 0`, and the centers are not
numbers for a plane with `c = 0`.  On the plane `(3/5) y + (4/5) z - 2 = 0`
with its alignment rotation, `zcoord_xyplane` is `-2` and the accepted center
`(1,1,-2)` is rotated back to `(1, 2/5, 11/5)`, but line 424 then divides
`0` by `a = 0`: the `x` of the pushed point is not a number, so no point
satisfying the plane equation is pushed.  On the plane `x = 0`, `c = 0` and
line 255 divides by zero: `zcoord_xyplane`, the `z` of every center, is not a
number. -/
theorem backProject_zero_coefficient_counterexample :
    planeFacingYZ.a = 0
      ∧ transformPoint { x := 0, y := 3/5, z := 4/5 } rotationAboutX
          = { x := 0, y := 0, z := -1 }
      ∧ zcoordChecked planeFacingYZ rotationAboutX = some (-2)
      ∧ (rotationAboutX.inverseChecked).map (transformPoint { x := 1, y := 1, z := -2 })
          = some { x := 1, y := 2/5, z := 11/5 }
      ∧ quotient (-planeFacingYZ.b * (2/5) - planeFacingYZ.c * (11/5) - planeFacingYZ.d)
          planeFacingYZ.a = none
      ∧ backProjectChecked planeFacingYZ rotationAboutX { x := 1, y := 1, z := -2 } = none
      ∧ commitCentersChecked planeFacingYZ rotationAboutX [{ x := 1, y := 1, z := -2 }] []
          = none
      ∧ planeXZero.c = 0
      ∧ zcoordChecked planeXZero rotationXToMinusZ = none := by
  decide!

/-! ## Accumulation: properties -/

theorem sizeGe_of_nonneg (size : Nat) (m : Int) (hm : 0 ≤ m)
    (hsmall : m < 18446744073709551616) :
    sizeGe size m = true ↔ m ≤ (size : Int) := by
  unfold sizeGe
  rw [Int.emod_eq_of_lt hm hsmall, decide_eq_true_iff]
  omega

theorem sizeGe_of_neg (size : Nat) (m : Int) (hm : m < 0)
    (hint : -2147483648 ≤ m) (hsize : size < 18446744071562067968) :
    sizeGe size m = false := by
  unfold sizeGe
  rw [decide_eq_false_iff_not]
  omega

/-- For a non-negative `min_centers_found` the commit check is the interval
test `min_centers_found <= n <= 4`. -/
theorem commitCheck_iff_of_nonneg (found_centers : List PointXYZ) (m : Int) (hm : 0 ≤ m)
    (hsmall : m < 2147483648) :
    commitCheck found_centers m = true
      ↔ (m ≤ (found_centers.length : Int) ∧ found_centers.length ≤ 4) := by
  unfold commitCheck
  rw [Bool.and_eq_true, sizeGe_of_nonneg _ _ hm (by omega), decide_eq_true_iff]
  omega

/-- A frame that passes the commit check: the back-projected centers are
appended in order, `nFrames` grows by one, `clouds_used_` follows it and
`clouds_proc_` is kept. -/
theorem accumulate_of_commit (getCenterClusters : CenterClusters) (params : Params)
    (coefficients : PlaneCoefficients) (rotation : Affine3) (found_centers : List PointXYZ)
    (node : Node) (h : commitCheck found_centers params.min_centers_found_ = true) :
    (accumulate getCenterClusters params coefficients rotation found_centers node).1
      = { cumulative_cloud :=
            node.cumulative_cloud ++ found_centers.map (backProject coefficients rotation)
          nFrames := node.nFrames + 1
          clouds_proc_ := node.clouds_proc_
          clouds_used_ := node.nFrames + 1 } := by
  simp [accumulate, h, commitCenters_eq]

/-- A frame that fails the commit check leaves the node as it was. -/
theorem accumulate_of_reject (getCenterClusters : CenterClusters) (params : Params)
    (coefficients : PlaneCoefficients) (rotation : Affine3) (found_centers : List PointXYZ)
    (node : Node) (h : commitCheck found_centers params.min_centers_found_ = false) :
    accumulate getCenterClusters params coefficients rotation found_centers node
      = (node,
          [Out.cumulative node.cumulative_cloud, Out.circle_center [],
           Out.warn (Warning.notEnoughCenters found_centers.length)]) := by
  simp [accumulate, h]

/-- For `0 <= min_centers_found` the accumulator follows the interval rule: the
frame is committed iff `min_centers_found <= n <= 4`; on commit the buffer is
the old buffer followed by the `n` back-projected centers and `nFrames` grows
by one; otherwise the node is unchanged. -/
theorem accumulate_of_nonneg_min (getCenterClusters : CenterClusters) (params : Params)
    (coefficients : PlaneCoefficients) (rotation : Affine3) (found_centers : List PointXYZ)
    (node : Node) (hm : 0 ≤ params.min_centers_found_)
    (hsmall : params.min_centers_found_ < 2147483648) :
    ((params.min_centers_found_ ≤ (found_centers.length : Int) ∧ found_centers.length ≤ 4) →
        (accumulate getCenterClusters params coefficients rotation found_centers node).1
            = { cumulative_cloud :=
                  node.cumulative_cloud ++ found_centers.map (backProject coefficients rotation)
                nFrames := node.nFrames + 1
                clouds_proc_ := node.clouds_proc_
                clouds_used_ := node.nFrames + 1 }
          ∧ (accumulate getCenterClusters params coefficients rotation found_centers
                node).1.cumulative_cloud.length
              = node.cumulative_cloud.length + found_centers.length)
      ∧ (¬ (params.min_centers_found_ ≤ (found_centers.length : Int)
              ∧ found_centers.length ≤ 4) →
          (accumulate getCenterClusters params coefficients rotation found_centers node).1
            = node) := by
  constructor
  · intro h
    have hc := (commitCheck_iff_of_nonneg found_centers _ hm hsmall).mpr h
    rw [accumulate_of_commit _ _ _ _ _ _ hc]
    simp
  · intro h
    have hc : commitCheck found_centers params.min_centers_found_ = false := by
      rw [← Bool.not_eq_true, commitCheck_iff_of_nonneg found_centers _ hm hsmall]
      exact h
    rw [accumulate_of_reject _ _ _ _ _ _ hc]

/-- Claim C1 at `min_centers_found = -1` and a frame of four accepted centers:
`-1 <= 4 <= 4` holds, yet the commit check is false and the frame is rejected,
with the buffer and the counters as before and the warning about too few
centers. -/
theorem accumulate_negative_min_rejected :
    ((-1 : Int) ≤ (fourFoundCenters.length : Int) ∧ fourFoundCenters.length ≤ 4)
      ∧ commitCheck fourFoundCenters (paramsWithMin (-1)).min_centers_found_ = false
      ∧ accumulate (fun _ centers _ _ _ => centers) (paramsWithMin (-1)) planeXZero
          rotationXToMinusZ fourFoundCenters nodeAfterOneFrame
          = (nodeAfterOneFrame,
              [Out.cumulative nodeAfterOneFrame.cumulative_cloud, Out.circle_center [],
               Out.warn (Warning.notEnoughCenters 4)]) := by
  decide!

/-! ## Early return of the callback: properties -/

/-- Every frame whose callback returns has `clouds_proc_` incremented by one. -/
theorem callback_clouds_proc (getCenterClusters : CenterClusters) (params : Params)
    (fuel : Nat) (frame : Frame) (node : Node) (res : Node × List Out)
    (h : callback getCenterClusters params fuel frame node = some res) :
    res.1.clouds_proc_ = node.clouds_proc_ + 1 := by
  unfold callback at h
  simp only at h
  split at h
  · cases h; rfl
  · split at h
    · cases h; rfl
    · split at h
      · cases h; rfl
      · unfold circleStage at h
        simp only at h
        split at h
        · cases h
        · rename_i res1 hres
          split at hres
          · cases hres
          · cases hres
            cases h
            simp only [accumulate]
            split <;> rfl

/-- Claim C2, as the code has it: a frame whose plane fit has no inlier or
whose edge cloud is empty is dropped with the buffer, `nFrames` and
`clouds_used_` unchanged and `clouds_proc_` incremented by one (whatever the
fuel of the circle loop, which is not reached); and every frame whose
callback returns, dropped or not, has `clouds_proc_` incremented by one. -/
theorem callback_early_drop (getCenterClusters : CenterClusters) (params : Params)
    (fuel : Nat) (frame : Frame) (node : Node)
    (hdrop : frame.plane_inliers.length = 0
      ∨ edgeDetector frame.knn params.edge_knn_radius_ params.edge_depth_thre_
          frame.velo_cloud_pc = []) :
    (∃ out : List Out,
        callback getCenterClusters params fuel frame node
          = some ({ cumulative_cloud := node.cumulative_cloud
                    nFrames := node.nFrames
                    clouds_proc_ := node.clouds_proc_ + 1
                    clouds_used_ := node.clouds_used_ }, out))
      ∧ ∀ (fuel1 : Nat) (frame1 : Frame) (res : Node × List Out),
          callback getCenterClusters params fuel1 frame1 node = some res →
            res.1.clouds_proc_ = node.clouds_proc_ + 1 := by
  refine ⟨?_, fun fuel1 frame1 res h =>
    callback_clouds_proc getCenterClusters params fuel1 frame1 node res h⟩
  unfold callback
  by_cases hp : frame.plane_inliers.length = 0
  · simp [hp]
  · rcases hdrop with h | h
    · exact absurd h hp
    · simp [hp, h]

/-- An instance: a frame with an empty edge cloud. -/
theorem callback_early_drop_witness :
    edgeDetector frameWithoutEdges.knn (paramsWithMin 4).edge_knn_radius_
        (paramsWithMin 4).edge_depth_thre_ frameWithoutEdges.velo_cloud_pc = []
      ∧ ∃ out : List Out,
          callback (fun _ centers _ _ _ => centers) (paramsWithMin 4) 0 frameWithoutEdges
              nodeAfterOneFrame
            = some ({ cumulative_cloud := nodeAfterOneFrame.cumulative_cloud
                      nFrames := nodeAfterOneFrame.nFrames
                      clouds_proc_ := nodeAfterOneFrame.clouds_proc_ + 1
                      clouds_used_ := nodeAfterOneFrame.clouds_used_ }, out) :=
  ⟨by decide!,
   (callback_early_drop (fun _ centers _ _ _ => centers) (paramsWithMin 4) 0 frameWithoutEdges
      nodeAfterOneFrame (Or.inr (by decide!))).1⟩

/-- Claim C2 fails as stated: on a frame whose edge cloud is empty the callback
returns with `clouds_proc_` raised from 2 to 3. -/
theorem callback_early_drop_counterexample :
    edgeDetector frameWithoutEdges.knn (paramsWithMin 4).edge_knn_radius_
        (paramsWithMin 4).edge_depth_thre_ frameWithoutEdges.velo_cloud_pc = []
      ∧ nodeAfterOneFrame.clouds_proc_ = 2
      ∧ (callback (fun _ centers _ _ _ => centers) (paramsWithMin 4) 0 frameWithoutEdges
            nodeAfterOneFrame).map (fun res => res.1.clouds_proc_) = some 3
      ∧ (callback (fun _ centers _ _ _ => centers) (paramsWithMin 4) 0 frameWithoutEdges
            nodeAfterOneFrame).map (fun res => res.2)
          = some [Out.range boardAtOrigin, Out.cloud_in_range [sweepPointAtTwo],
                  Out.warn Warning.noPatternEdges] := by
  decide!

/-! ## Control loop: properties -/

theorem pausedLoop_resume (waits : List Poll) (resume : Poll) (rest : List Poll)
    (hwaits : ∀ w ∈ waits,
      w.ok = true ∧ w.end_process ≠ some true ∧ w.do_acc_boards ≠ some true)
    (hok : resume.ok = true) (hend : resume.end_process ≠ some true)
    (hacc : resume.do_acc_boards = some true) :
    pausedLoop (waits ++ resume :: rest) { end_process := false, do_acc_boards := false }
      = some ({ end_process := false, do_acc_boards := true }, rest) := by
  induction waits with
  | nil =>
    have he : resume.end_process.getD false = false := by
      cases h : resume.end_process with
      | none => rfl
      | some b => cases b <;> simp_all
    cases rest <;> simp [pausedLoop, readParams, hok, hacc, he]
  | cons w ws ih =>
    have hw := hwaits w (List.mem_cons_self _ _)
    have he : w.end_process.getD false = false := by
      cases h : w.end_process with
      | none => rfl
      | some b => cases b <;> simp_all
    have ha : w.do_acc_boards.getD false = false := by
      cases h : w.do_acc_boards with
      | none => rfl
      | some b => cases b <;> simp_all
    have ih1 := ih (fun v hv => hwaits v (List.mem_cons_of_mem _ hv))
    simp [pausedLoop, readParams, hw.1, he, ha, ih1]

/-- Whenever a turn of the control loop goes through the pause block and the
loop goes on, the node it goes on with is the cleared one. -/
theorem controlTurn_running_after_pause (node : Node) (flags : Flags) (poll : Poll)
    (rest : List Poll) (node1 : Node) (flags1 : Flags) (rest1 : List Poll)
    (hpause : (readParams flags poll).do_acc_boards = false)
    (h : controlTurn node flags poll rest = Control.running node1 flags1 rest1) :
    node1 = { cumulative_cloud := [], nFrames := 0, clouds_proc_ := 0, clouds_used_ := 0 } := by
  unfold controlTurn at h
  simp only [hpause] at h
  split at h
  · split at h
    · cases h
    · simp only [Bool.not_false, if_true] at h
      split at h
      · cases h
      · split at h
        · cases h
        · cases h; rfl
  · cases h

/-- Claim C3: whatever the node holds, a turn of the control loop that finds
the accumulate flag inactive (terminate not set), keeps finding it so for any
number of polls and then finds it active (terminate still not set) reaches
`ros::spinOnce()` with an empty buffer and `nFrames`, `clouds_used_` and
`clouds_proc_` all zero. -/
theorem controlTurn_reset (node : Node) (flags : Flags) (poll : Poll) (waits : List Poll)
    (resume : Poll) (rest : List Poll)
    (hok0 : poll.ok = true)
    (hend0 : (readParams flags poll).end_process = false)
    (hacc0 : (readParams flags poll).do_acc_boards = false)
    (hwaits : ∀ w ∈ waits,
      w.ok = true ∧ w.end_process ≠ some true ∧ w.do_acc_boards ≠ some true)
    (hok : resume.ok = true) (hend : resume.end_process ≠ some true)
    (hacc : resume.do_acc_boards = some true) :
    ∃ node1 : Node,
      controlTurn node flags poll (waits ++ resume :: rest)
          = Control.running node1 { end_process := false, do_acc_boards := true } rest
        ∧ node1.cumulative_cloud.length = 0
        ∧ node1.nFrames = 0
        ∧ node1.clouds_used_ = 0
        ∧ node1.clouds_proc_ = 0 := by
  refine ⟨resetNode node, ?_, rfl, rfl, rfl, rfl⟩
  have hflags : readParams flags poll = { end_process := false, do_acc_boards := false } := by
    cases hr : readParams flags poll with
    | mk e a =>
      rw [hr] at hend0 hacc0
      simp only at hend0 hacc0
      rw [hend0, hacc0]
  unfold controlTurn
  simp only [hok0, if_true, hflags]
  rw [pausedLoop_resume waits resume rest hwaits hok hend hacc]
  simp

/-- An instance: a node with four buffered centers, the
flag seen inactive twice and then active. -/
theorem controlTurn_reset_witness :
    ∃ node1 : Node,
      controlTurn nodeAfterOneFrame { end_process := false, do_acc_boards := true }
          (pollAcc false) ([pollAcc false] ++ pollAcc true :: [])
          = Control.running node1 { end_process := false, do_acc_boards := true } []
        ∧ node1.cumulative_cloud.length = 0
        ∧ node1.nFrames = 0
        ∧ node1.clouds_used_ = 0
        ∧ node1.clouds_proc_ = 0 :=
  controlTurn_reset nodeAfterOneFrame { end_process := false, do_acc_boards := true }
    (pollAcc false) [pollAcc false] (pollAcc true) []
    (by decide) (by decide) (by decide) (by decide) (by decide) (by decide) (by decide)

/-! ## Square-root comparisons: agreement with `Real.sqrt` -/

theorem sqDist2D_nonneg (ax ay bx by_ : ℚ) : 0 ≤ sqDist2D ax ay bx by_ := by
  unfold sqDist2D
  positivity

theorem sqDist2D_comm (ax ay bx by_ : ℚ) : sqDist2D ax ay bx by_ = sqDist2D bx by_ ax ay := by
  unfold sqDist2D
  rw [abs_sub_comm ax bx, abs_sub_comm ay by_]

/-- The test `sqrtLt s t` is the comparison `sqrt(s) < t` of real numbers. -/
theorem sqrtLt_iff (s t : ℚ) : sqrtLt s t = true ↔ Real.sqrt (s : ℝ) < (t : ℝ) := by
  unfold sqrtLt
  rw [decide_eq_true_iff]
  by_cases ht : 0 < t
  · have htr : (0 : ℝ) < (t : ℝ) := by exact_mod_cast ht
    rw [Real.sqrt_lt' htr]
    constructor
    · intro h
      exact_mod_cast h.2
    · intro h
      exact ⟨ht, by exact_mod_cast h⟩
  · constructor
    · intro h
      exact absurd h.1 ht
    · intro h
      have h0 : (0 : ℝ) ≤ Real.sqrt (s : ℝ) := Real.sqrt_nonneg _
      have htr : (t : ℝ) ≤ 0 := by exact_mod_cast not_lt.mp ht
      linarith

/-- The test `sqrtGt s t` is the comparison `sqrt(s) > t` of real numbers. -/
theorem sqrtGt_iff (s t : ℚ) : sqrtGt s t = true ↔ (t : ℝ) < Real.sqrt (s : ℝ) := by
  unfold sqrtGt
  rw [decide_eq_true_iff]
  by_cases ht : t < 0
  · have htr : (t : ℝ) < 0 := by exact_mod_cast ht
    have h0 : (0 : ℝ) ≤ Real.sqrt (s : ℝ) := Real.sqrt_nonneg _
    constructor
    · intro _
      linarith
    · intro _
      exact Or.inl ht
  · have htr : (0 : ℝ) ≤ (t : ℝ) := by exact_mod_cast not_lt.mp ht
    rw [Real.lt_sqrt htr]
    constructor
    · intro h
      rcases h with h | h
      · exact absurd h ht
      · exact_mod_cast h
    · intro h
      exact Or.inr (by exact_mod_cast h)

/-! ## Circle loop: properties -/

theorem checkDuplicates_iff (center : PointXYZ) (found_centers : List PointXYZ) :
    checkDuplicates center found_centers = true
      ↔ ∀ it ∈ found_centers, sqrtLt (sqDist2D it.x it.y center.x center.y) 0.25 = false := by
  induction found_centers with
  | nil => simp [checkDuplicates]
  | cons it rest ih =>
    unfold checkDuplicates
    by_cases h : sqrtLt (sqDist2D it.x it.y center.x center.y) 0.25 = true
    · simp [h]
    · simp [h, ih]

/-- The list `found_centers` after one turn: the fitted center is pushed when
the turn accepts it, nothing is pushed otherwise; a turn only runs with fewer
than 4 found centers. -/
theorem loopStep_found_centers (env : LoopEnv) (st st1 : LoopState)
    (h : loopStep env st = some st1) :
    st.found_centers.length < 4
      ∧ st1.found_centers
          = if accepts env st then
              st.found_centers ++
                [{ x := (env.circle_fit st.iter st.copy_cloud).cx
                   y := (env.circle_fit st.iter st.copy_cloud).cy
                   z := env.zcoord_xyplane }]
            else st.found_centers := by
  unfold loopStep at h
  split at h
  · rename_i hg
    refine ⟨?_, ?_⟩
    · simp only [loopGuard, Bool.and_eq_true, decide_eq_true_iff] at hg
      exact hg.1.2
    · unfold loopBody at h
      simp only at h
      split at h
      · cases h
      · cases h
        unfold accepts
        simp only
        by_cases h1 : sqrtLt (sqDist2D env.edges_centroid.x env.edges_centroid.y
            (env.circle_fit st.iter st.copy_cloud).cx
            (env.circle_fit st.iter st.copy_cloud).cy) env.centroid_distance_min_ = true
        · simp [h1]
        · by_cases h2 : sqrtGt (sqDist2D env.edges_centroid.x env.edges_centroid.y
              (env.circle_fit st.iter st.copy_cloud).cx
              (env.circle_fit st.iter st.copy_cloud).cy) env.centroid_distance_max_ = true
          · simp [h1, h2]
          · simp [h1, h2]
  · cases h

/-- A property of `found_centers` kept by every turn holds after any number of
turns. -/
theorem loopTurns_found_centers_invariant (env : LoopEnv) (P : List PointXYZ → Prop)
    (hstep : ∀ st st1, loopStep env st = some st1 → P st.found_centers → P st1.found_centers)
    (k : Nat) (st : LoopState) (h0 : P st.found_centers) :
    P (loopTurns env k st).found_centers := by
  induction k generalizing st with
  | zero => exact h0
  | succ k ih =>
    unfold loopTurns
    cases hs : loopStep env st with
    | none => exact h0
    | some st1 => exact ih st1 (hstep st st1 hs h0)

/-- The loop run to its exit returns a state of `loopTurns`, a terminal one. -/
theorem circleLoop_eq_loopTurns (env : LoopEnv) (fuel : Nat) (st st1 : LoopState)
    (h : circleLoop env fuel st = some st1) :
    st1 = loopTurns env fuel st ∧ loopStep env st1 = none := by
  induction fuel generalizing st with
  | zero => cases h
  | succ fuel ih =>
    unfold circleLoop at h
    unfold loopTurns
    cases hs : loopStep env st with
    | none =>
      rw [hs] at h
      cases h
      exact ⟨rfl, hs⟩
    | some st2 =>
      rw [hs] at h
      exact ih st2 h

theorem not_sqrtLt_quarter_iff (s : ℚ) :
    sqrtLt s 0.25 = false ↔ (0.25 : ℝ) ≤ Real.sqrt (s : ℝ) := by
  rw [← Bool.not_eq_true, sqrtLt_iff, not_lt]
  norm_num

theorem sqrtLt_quarter_iff (s : ℚ) :
    sqrtLt s 0.25 = true ↔ Real.sqrt (s : ℝ) < (0.25 : ℝ) := by
  rw [sqrtLt_iff]
  norm_num

theorem found_centers_apart_turns (env : LoopEnv) (xy_cloud : List PointXYZ) (k : Nat) :
    List.Pairwise
        (fun p q : PointXYZ =>
          (0.25 : ℝ) ≤ Real.sqrt ((sqDist2D p.x p.y q.x q.y : ℚ) : ℝ)
            ∧ (0.25 : ℝ) ≤ Real.sqrt ((sqDist2D q.x q.y p.x p.y : ℚ) : ℝ))
        (loopTurns env k (loopInit xy_cloud env.zcoord_xyplane)).found_centers := by
  apply loopTurns_found_centers_invariant env
    (fun l => List.Pairwise
      (fun p q : PointXYZ =>
        (0.25 : ℝ) ≤ Real.sqrt ((sqDist2D p.x p.y q.x q.y : ℚ) : ℝ)
          ∧ (0.25 : ℝ) ≤ Real.sqrt ((sqDist2D q.x q.y p.x p.y : ℚ) : ℝ)) l)
  · intro st st1 hs hP
    have hf := (loopStep_found_centers env st st1 hs).2
    by_cases ha : accepts env st = true
    · rw [hf, if_pos ha, List.pairwise_append]
      refine ⟨hP, List.pairwise_singleton _ _, ?_⟩
      intro a hmem b hb
      rw [List.mem_singleton] at hb
      subst hb
      unfold accepts at ha
      simp only [Bool.and_eq_true] at ha
      have hd := (checkDuplicates_iff _ _).mp ha.2 a hmem
      simp only at hd
      have h1 := (not_sqrtLt_quarter_iff _).mp hd
      refine ⟨h1, ?_⟩
      rw [sqDist2D_comm]
      exact h1
    · rw [hf, if_neg ha]
      exact hP
  · simp [loopInit]

/-- Claim C4: after any number of turns of the circle loop, and so at its
exit, any two entries of `found_centers` at different positions are at 2D
distance at least 0.25 (in either order), and a turn whose fitted center is
closer than 0.25 to a center already found leaves `found_centers` as it was. -/
theorem found_centers_apart (env : LoopEnv) (xy_cloud : List PointXYZ) (k : Nat) :
    List.Pairwise
        (fun p q : PointXYZ =>
          (0.25 : ℝ) ≤ Real.sqrt ((sqDist2D p.x p.y q.x q.y : ℚ) : ℝ)
            ∧ (0.25 : ℝ) ≤ Real.sqrt ((sqDist2D q.x q.y p.x p.y : ℚ) : ℝ))
        (loopTurns env k (loopInit xy_cloud env.zcoord_xyplane)).found_centers
      ∧ (∀ st : LoopState,
          circleLoop env k (loopInit xy_cloud env.zcoord_xyplane) = some st →
          List.Pairwise
            (fun p q : PointXYZ =>
              (0.25 : ℝ) ≤ Real.sqrt ((sqDist2D p.x p.y q.x q.y : ℚ) : ℝ)
                ∧ (0.25 : ℝ) ≤ Real.sqrt ((sqDist2D q.x q.y p.x p.y : ℚ) : ℝ))
            st.found_centers)
      ∧ ∀ st st1 : LoopState, loopStep env st = some st1 →
          (∃ q ∈ st.found_centers,
            Real.sqrt ((sqDist2D q.x q.y (env.circle_fit st.iter st.copy_cloud).cx
              (env.circle_fit st.iter st.copy_cloud).cy : ℚ) : ℝ) < (0.25 : ℝ)) →
          st1.found_centers = st.found_centers := by
  refine ⟨found_centers_apart_turns env xy_cloud k, ?_, ?_⟩
  · intro st hst
    rw [(circleLoop_eq_loopTurns env k _ st hst).1]
    exact found_centers_apart_turns env xy_cloud k
  · intro st st1 hs hq
    obtain ⟨q, hmem, hlt⟩ := hq
    have hf := (loopStep_found_centers env st st1 hs).2
    have ha : accepts env st = false := by
      unfold accepts
      simp only [Bool.and_eq_false_iff]
      right
      rw [← Bool.not_eq_true, checkDuplicates_iff]
      intro hall
      have hd := hall q hmem
      simp only at hd
      have := (not_sqrtLt_quarter_iff _).mp hd
      linarith
    rw [hf, ha]
    simp

theorem found_centers_valid_turns (env : LoopEnv) (xy_cloud : List PointXYZ) (k : Nat) :
    (loopTurns env k (loopInit xy_cloud env.zcoord_xyplane)).found_centers.length ≤ 4
      ∧ ∀ c ∈ (loopTurns env k (loopInit xy_cloud env.zcoord_xyplane)).found_centers,
          (env.centroid_distance_min_ : ℝ)
              ≤ Real.sqrt ((sqDist2D env.edges_centroid.x env.edges_centroid.y c.x c.y : ℚ) : ℝ)
            ∧ Real.sqrt ((sqDist2D env.edges_centroid.x env.edges_centroid.y c.x c.y : ℚ) : ℝ)
              ≤ (env.centroid_distance_max_ : ℝ) := by
  apply loopTurns_found_centers_invariant env
    (fun l => l.length ≤ 4
      ∧ ∀ c ∈ l,
        (env.centroid_distance_min_ : ℝ)
            ≤ Real.sqrt ((sqDist2D env.edges_centroid.x env.edges_centroid.y c.x c.y : ℚ) : ℝ)
          ∧ Real.sqrt ((sqDist2D env.edges_centroid.x env.edges_centroid.y c.x c.y : ℚ) : ℝ)
            ≤ (env.centroid_distance_max_ : ℝ))
  · intro st st1 hs hP
    obtain ⟨hlen, hf⟩ := loopStep_found_centers env st st1 hs
    by_cases ha : accepts env st = true
    · rw [hf, if_pos ha]
      refine ⟨by simp only [List.length_append, List.length_singleton]; omega, ?_⟩
      intro c hc
      rw [List.mem_append, List.mem_singleton] at hc
      rcases hc with hc | hc
      · exact hP.2 c hc
      · subst hc
        unfold accepts at ha
        simp only [Bool.and_eq_true, Bool.not_eq_true'] at ha
        have h1 := ha.1.1
        have h2 := ha.1.2
        rw [← Bool.not_eq_true, sqrtLt_iff, not_lt] at h1
        rw [← Bool.not_eq_true, sqrtGt_iff, not_lt] at h2
        exact ⟨h1, h2⟩
    · rw [hf, if_neg ha]
      exact hP
  · simp [loopInit]

/-- Claim C9: after any number of turns of the circle loop, and so at its
exit, `found_centers` has at most 4 entries, each at a 2D distance from the
pattern centroid within `[centroid_distance_min_, centroid_distance_max_]`; a
turn whose fitted center is closer than the minimum or farther than the
maximum leaves `found_centers` as it was. -/
theorem found_centers_valid (env : LoopEnv) (xy_cloud : List PointXYZ) (k : Nat) :
    ((loopTurns env k (loopInit xy_cloud env.zcoord_xyplane)).found_centers.length ≤ 4
      ∧ ∀ c ∈ (loopTurns env k (loopInit xy_cloud env.zcoord_xyplane)).found_centers,
          (env.centroid_distance_min_ : ℝ)
              ≤ Real.sqrt ((sqDist2D env.edges_centroid.x env.edges_centroid.y c.x c.y : ℚ) : ℝ)
            ∧ Real.sqrt ((sqDist2D env.edges_centroid.x env.edges_centroid.y c.x c.y : ℚ) : ℝ)
              ≤ (env.centroid_distance_max_ : ℝ))
      ∧ (∀ st : LoopState,
          circleLoop env k (loopInit xy_cloud env.zcoord_xyplane) = some st →
          st.found_centers.length ≤ 4
            ∧ ∀ c ∈ st.found_centers,
                (env.centroid_distance_min_ : ℝ)
                    ≤ Real.sqrt
                        ((sqDist2D env.edges_centroid.x env.edges_centroid.y c.x c.y : ℚ) : ℝ)
                  ∧ Real.sqrt
                        ((sqDist2D env.edges_centroid.x env.edges_centroid.y c.x c.y : ℚ) : ℝ)
                    ≤ (env.centroid_distance_max_ : ℝ))
      ∧ ∀ st st1 : LoopState, loopStep env st = some st1 →
          (Real.sqrt ((sqDist2D env.edges_centroid.x env.edges_centroid.y
                (env.circle_fit st.iter st.copy_cloud).cx
                (env.circle_fit st.iter st.copy_cloud).cy : ℚ) : ℝ)
              < (env.centroid_distance_min_ : ℝ)
            ∨ (env.centroid_distance_max_ : ℝ)
              < Real.sqrt ((sqDist2D env.edges_centroid.x env.edges_centroid.y
                (env.circle_fit st.iter st.copy_cloud).cx
                (env.circle_fit st.iter st.copy_cloud).cy : ℚ) : ℝ)) →
          st1.found_centers = st.found_centers := by
  refine ⟨found_centers_valid_turns env xy_cloud k, ?_, ?_⟩
  · intro st hst
    rw [(circleLoop_eq_loopTurns env k _ st hst).1]
    exact found_centers_valid_turns env xy_cloud k
  · intro st st1 hs hq
    have hf := (loopStep_found_centers env st st1 hs).2
    have ha : accepts env st = false := by
      unfold accepts
      simp only [Bool.and_eq_false_iff, Bool.not_eq_false']
      left
      rcases hq with h | h
      · left
        exact (sqrtLt_iff _ _).mpr h
      · right
        exact (sqrtGt_iff _ _).mpr h
    rw [hf, ha]
    simp

/-- An instance: the first turn accepts the center
`(1,0)`, the second turn fits `(1.1,0)`, 0.1 away, and pushes nothing. -/
theorem found_centers_apart_witness :
    loopStep loopEnvExample (loopTurns loopEnvExample 1 (loopInit candidateCloud 0))
        = some (loopTurns loopEnvExample 2 (loopInit candidateCloud 0))
      ∧ (loopTurns loopEnvExample 1 (loopInit candidateCloud 0)).found_centers
          = [{ x := 1, y := 0, z := 0 }]
      ∧ (loopTurns loopEnvExample 2 (loopInit candidateCloud 0)).found_centers
          = (loopTurns loopEnvExample 1 (loopInit candidateCloud 0)).found_centers :=
  ⟨by decide!, by decide!,
   (found_centers_apart loopEnvExample candidateCloud 2).2.2
     (loopTurns loopEnvExample 1 (loopInit candidateCloud 0))
     (loopTurns loopEnvExample 2 (loopInit candidateCloud 0)) (by decide!)
     ⟨{ x := 1, y := 0, z := 0 }, by decide!, (sqrtLt_quarter_iff _).mp (by decide!)⟩⟩

/-- An instance: the third turn fits a circle on the
pattern centroid itself and pushes nothing. -/
theorem found_centers_valid_witness :
    loopStep loopEnvExample (loopTurns loopEnvExample 2 (loopInit candidateCloud 0))
        = some (loopTurns loopEnvExample 3 (loopInit candidateCloud 0))
      ∧ (loopTurns loopEnvExample 3 (loopInit candidateCloud 0)).centroid_cloud_inliers
          = [{ x := 1, y := 0.5, z := 0 }]
      ∧ (loopTurns loopEnvExample 3 (loopInit candidateCloud 0)).found_centers
          = (loopTurns loopEnvExample 2 (loopInit candidateCloud 0)).found_centers :=
  ⟨by decide!, by decide!,
   (found_centers_valid loopEnvExample candidateCloud 3).2.2
     (loopTurns loopEnvExample 2 (loopInit candidateCloud 0))
     (loopTurns loopEnvExample 3 (loopInit candidateCloud 0)) (by decide!)
     (Or.inl ((sqrtLt_iff _ _).mp (by decide!)))⟩

/-! ## Consensus clustering and the centers message: properties -/

theorem consensus_published (getCenterClusters : CenterClusters) (tolerance : ℚ) (node : Node)
    (circle_center_cloud : List PointXYZ) :
    (consensus getCenterClusters tolerance node circle_center_cloud).published
      = if (consensus getCenterClusters tolerance node circle_center_cloud).centers_cloud.length
            = 4 then
          [Out.centers_centroid
             (consensus getCenterClusters tolerance node circle_center_cloud).centers_cloud,
           Out.centers
             { cluster_iterations := node.clouds_used_
               total_iterations := node.clouds_proc_
               cloud := circle_center_cloud }]
        else [] := rfl

theorem consensus_published_mem (getCenterClusters : CenterClusters) (tolerance : ℚ)
    (node : Node) (circle_center_cloud : List PointXYZ) (msg : ClusterCentroids) :
    Out.centers msg ∈ (consensus getCenterClusters tolerance node circle_center_cloud).published
      ↔ ((consensus getCenterClusters tolerance node circle_center_cloud).centers_cloud.length
            = 4
          ∧ msg = { cluster_iterations := node.clouds_used_
                    total_iterations := node.clouds_proc_
                    cloud := circle_center_cloud }) := by
  rw [consensus_published]
  by_cases h : (consensus getCenterClusters tolerance node
      circle_center_cloud).centers_cloud.length = 4
  · simp [h]
  · simp [h]

theorem consensus_centers_cloud (getCenterClusters : CenterClusters) (tolerance : ℚ)
    (node : Node) (circle_center_cloud : List PointXYZ) :
    (consensus getCenterClusters tolerance node circle_center_cloud).centers_cloud
      = if (getCenterClusters node.cumulative_cloud [] tolerance
              ((Int.tdiv node.nFrames 2 : Int) : ℚ) (node.nFrames : ℚ)).length > 4 then
          getCenterClusters node.cumulative_cloud
            (getCenterClusters node.cumulative_cloud [] tolerance
              ((Int.tdiv node.nFrames 2 : Int) : ℚ) (node.nFrames : ℚ))
            tolerance (3 * (node.nFrames : ℚ) / 4) (node.nFrames : ℚ)
        else
          getCenterClusters node.cumulative_cloud [] tolerance
            ((Int.tdiv node.nFrames 2 : Int) : ℚ) (node.nFrames : ℚ) := by
  unfold consensus
  simp only
  by_cases h : (getCenterClusters node.cumulative_cloud [] tolerance
      ((Int.tdiv node.nFrames 2 : Int) : ℚ) (node.nFrames : ℚ)).length > 4
  · simp only [h, decide_True, if_true]
    norm_num
  · simp [h]

theorem consensus_calls (getCenterClusters : CenterClusters) (tolerance : ℚ)
    (node : Node) (circle_center_cloud : List PointXYZ) :
    (consensus getCenterClusters tolerance node circle_center_cloud).calls
      = if (getCenterClusters node.cumulative_cloud [] tolerance
              ((Int.tdiv node.nFrames 2 : Int) : ℚ) (node.nFrames : ℚ)).length > 4 then
          [{ cloud_in := node.cumulative_cloud, centers_before := []
             tolerance := tolerance
             min_size := ((Int.tdiv node.nFrames 2 : Int) : ℚ)
             max_size := (node.nFrames : ℚ) },
           { cloud_in := node.cumulative_cloud
             centers_before :=
               getCenterClusters node.cumulative_cloud [] tolerance
                 ((Int.tdiv node.nFrames 2 : Int) : ℚ) (node.nFrames : ℚ)
             tolerance := tolerance
             min_size := 3 * (node.nFrames : ℚ) / 4
             max_size := (node.nFrames : ℚ) }]
        else
          [{ cloud_in := node.cumulative_cloud, centers_before := []
             tolerance := tolerance
             min_size := ((Int.tdiv node.nFrames 2 : Int) : ℚ)
             max_size := (node.nFrames : ℚ) }] := by
  unfold consensus
  simp only
  by_cases h : (getCenterClusters node.cumulative_cloud [] tolerance
      ((Int.tdiv node.nFrames 2 : Int) : ℚ) (node.nFrames : ℚ)).length > 4
  · simp only [h, decide_True, if_true]
    norm_num
  · simp [h]

/-- Claim C6: a committed frame leaves the node with the frame's centers
appended and `nFrames` incremented, and its outputs end with what the
consensus stage publishes for that node.  The consensus stage calls
`getCenterClusters` on the buffer with minimum support `nFrames/2`; it calls
it a second time, with minimum support `3*nFrames/4`, iff the first call
leaves more than 4 centers; its `centers_cloud` is what the second call
returns when there is one and what the first call returns otherwise; and it
publishes the consensus centers and the centers message iff that final
`centers_cloud` holds exactly 4 centers, and nothing otherwise.  So the frame
emits a centers message iff the final clustering of the new buffer has
exactly 4 centers. -/
theorem consensus_control_flow (getCenterClusters : CenterClusters) (params : Params)
    (coefficients : PlaneCoefficients) (rotation : Affine3) (found_centers : List PointXYZ)
    (node node1 : Node) (circle_center_cloud : List PointXYZ)
    (hcommit : commitCheck found_centers params.min_centers_found_ = true) :
    ((accumulate getCenterClusters params coefficients rotation found_centers node).1.nFrames
        = node.nFrames + 1
      ∧ (accumulate getCenterClusters params coefficients rotation found_centers node).2
          = [Out.cumulative
               (node.cumulative_cloud ++ found_centers.map (backProject coefficients rotation)),
             Out.circle_center (found_centers.map (backProject coefficients rotation)),
             Out.plane_model coefficients]
            ++ (consensus getCenterClusters params.cluster_size_
                  (accumulate getCenterClusters params coefficients rotation found_centers
                    node).1
                  (found_centers.map (backProject coefficients rotation))).published)
    ∧ (consensus getCenterClusters params.cluster_size_ node1 circle_center_cloud).calls.head?
        = some { cloud_in := node1.cumulative_cloud, centers_before := []
                 tolerance := params.cluster_size_
                 min_size := ((Int.tdiv node1.nFrames 2 : Int) : ℚ)
                 max_size := (node1.nFrames : ℚ) }
    ∧ ((consensus getCenterClusters params.cluster_size_ node1 circle_center_cloud).calls.tail
          = [{ cloud_in := node1.cumulative_cloud
               centers_before :=
                 getCenterClusters node1.cumulative_cloud [] params.cluster_size_
                   ((Int.tdiv node1.nFrames 2 : Int) : ℚ) (node1.nFrames : ℚ)
               tolerance := params.cluster_size_
               min_size := 3 * (node1.nFrames : ℚ) / 4
               max_size := (node1.nFrames : ℚ) }]
        ↔ (getCenterClusters node1.cumulative_cloud [] params.cluster_size_
            ((Int.tdiv node1.nFrames 2 : Int) : ℚ) (node1.nFrames : ℚ)).length > 4)
    ∧ ((consensus getCenterClusters params.cluster_size_ node1 circle_center_cloud).calls.tail
          = []
        ↔ ¬ (getCenterClusters node1.cumulative_cloud [] params.cluster_size_
            ((Int.tdiv node1.nFrames 2 : Int) : ℚ) (node1.nFrames : ℚ)).length > 4)
    ∧ ((∃ msg, Out.centers msg
            ∈ (consensus getCenterClusters params.cluster_size_ node1
                circle_center_cloud).published)
        ↔ (consensus getCenterClusters params.cluster_size_ node1
            circle_center_cloud).centers_cloud.length = 4)
    ∧ ((consensus getCenterClusters params.cluster_size_ node1 circle_center_cloud).published
          = []
        ↔ (consensus getCenterClusters params.cluster_size_ node1
            circle_center_cloud).centers_cloud.length ≠ 4)
    ∧ (consensus getCenterClusters params.cluster_size_ node1
          circle_center_cloud).centers_cloud
        = (if (getCenterClusters node1.cumulative_cloud [] params.cluster_size_
                ((Int.tdiv node1.nFrames 2 : Int) : ℚ) (node1.nFrames : ℚ)).length > 4 then
            getCenterClusters node1.cumulative_cloud
              (getCenterClusters node1.cumulative_cloud [] params.cluster_size_
                ((Int.tdiv node1.nFrames 2 : Int) : ℚ) (node1.nFrames : ℚ))
              params.cluster_size_ (3 * (node1.nFrames : ℚ) / 4) (node1.nFrames : ℚ)
          else
            getCenterClusters node1.cumulative_cloud [] params.cluster_size_
              ((Int.tdiv node1.nFrames 2 : Int) : ℚ) (node1.nFrames : ℚ))
    ∧ (consensus getCenterClusters params.cluster_size_ node1 circle_center_cloud).published
        = (if (consensus getCenterClusters params.cluster_size_ node1
                circle_center_cloud).centers_cloud.length = 4 then
            [Out.centers_centroid
               (consensus getCenterClusters params.cluster_size_ node1
                 circle_center_cloud).centers_cloud,
             Out.centers
               { cluster_iterations := node1.clouds_used_
                 total_iterations := node1.clouds_proc_
                 cloud := circle_center_cloud }]
          else [])
    ∧ (accumulate getCenterClusters params coefficients rotation found_centers node).1
        = { cumulative_cloud :=
              node.cumulative_cloud ++ found_centers.map (backProject coefficients rotation)
            nFrames := node.nFrames + 1
            clouds_proc_ := node.clouds_proc_
            clouds_used_ := node.nFrames + 1 }
    ∧ ((∃ msg, Out.centers msg
            ∈ (accumulate getCenterClusters params coefficients rotation found_centers node).2)
        ↔ (if (getCenterClusters
                  (node.cumulative_cloud ++ found_centers.map (backProject coefficients rotation))
                  [] params.cluster_size_
                  ((Int.tdiv (node.nFrames + 1) 2 : Int) : ℚ)
                  ((node.nFrames + 1 : Int) : ℚ)).length > 4 then
              getCenterClusters
                (node.cumulative_cloud ++ found_centers.map (backProject coefficients rotation))
                (getCenterClusters
                  (node.cumulative_cloud ++ found_centers.map (backProject coefficients rotation))
                  [] params.cluster_size_
                  ((Int.tdiv (node.nFrames + 1) 2 : Int) : ℚ)
                  ((node.nFrames + 1 : Int) : ℚ))
                params.cluster_size_ (3 * ((node.nFrames + 1 : Int) : ℚ) / 4)
                ((node.nFrames + 1 : Int) : ℚ)
            else
              getCenterClusters
                (node.cumulative_cloud ++ found_centers.map (backProject coefficients rotation))
                [] params.cluster_size_
                ((Int.tdiv (node.nFrames + 1) 2 : Int) : ℚ)
                ((node.nFrames + 1 : Int) : ℚ)).length = 4) := by
  have hnode := accumulate_of_commit getCenterClusters params coefficients rotation
    found_centers node hcommit
  have hout : (accumulate getCenterClusters params coefficients rotation found_centers node).2
      = [Out.cumulative
           (node.cumulative_cloud ++ found_centers.map (backProject coefficients rotation)),
         Out.circle_center (found_centers.map (backProject coefficients rotation)),
         Out.plane_model coefficients]
        ++ (consensus getCenterClusters params.cluster_size_
              (accumulate getCenterClusters params coefficients rotation found_centers node).1
              (found_centers.map (backProject coefficients rotation))).published := by
    simp [accumulate, hcommit, commitCenters_eq]
  have hmem : ∀ (nd : Node) (ccc : List PointXYZ),
      (∃ msg, Out.centers msg
          ∈ (consensus getCenterClusters params.cluster_size_ nd ccc).published)
        ↔ (consensus getCenterClusters params.cluster_size_ nd ccc).centers_cloud.length
            = 4 := by
    intro nd ccc
    rw [consensus_published]
    by_cases h : (consensus getCenterClusters params.cluster_size_ nd ccc).centers_cloud.length
        = 4
    · simp [h]
    · simp [h]
  refine ⟨⟨by rw [hnode], hout⟩, ?_, ?_, ?_, hmem node1 circle_center_cloud, ?_,
    consensus_centers_cloud _ _ _ _, consensus_published _ _ _ _, hnode, ?_⟩
  · rw [consensus_calls]
    split <;> rfl
  · rw [consensus_calls]
    by_cases h : (getCenterClusters node1.cumulative_cloud [] params.cluster_size_
        ((Int.tdiv node1.nFrames 2 : Int) : ℚ) (node1.nFrames : ℚ)).length > 4
    · simp [h]
    · simp [h]
  · rw [consensus_calls]
    by_cases h : (getCenterClusters node1.cumulative_cloud [] params.cluster_size_
        ((Int.tdiv node1.nFrames 2 : Int) : ℚ) (node1.nFrames : ℚ)).length > 4
    · simp [h]
    · simp [h]
  · rw [consensus_published]
    by_cases h : (consensus getCenterClusters params.cluster_size_ node1
        circle_center_cloud).centers_cloud.length = 4
    · simp [h]
    · simp [h]
  · rw [hout]
    have hsplit : (∃ msg, Out.centers msg
          ∈ [Out.cumulative
               (node.cumulative_cloud ++ found_centers.map (backProject coefficients rotation)),
             Out.circle_center (found_centers.map (backProject coefficients rotation)),
             Out.plane_model coefficients]
            ++ (consensus getCenterClusters params.cluster_size_
                  (accumulate getCenterClusters params coefficients rotation found_centers
                    node).1
                  (found_centers.map (backProject coefficients rotation))).published)
        ↔ (∃ msg, Out.centers msg
          ∈ (consensus getCenterClusters params.cluster_size_
                  (accumulate getCenterClusters params coefficients rotation found_centers
                    node).1
                  (found_centers.map (backProject coefficients rotation))).published) := by
      simp
    rw [hsplit, hmem, consensus_centers_cloud, hnode]

/-- An instance: a fourth frame of four centers on `planeFacingXZ`.  The first
clustering, with minimum support `4/2 = 2`, leaves five centers (the false
center was seen twice), so the buffer is clustered again with minimum support
`3*4/4 = 3`, which leaves the four centers seen at least three times, and the
centers message goes out. -/
theorem consensus_control_flow_witness :
    commitCheck fourAlignedCenters (paramsWithMin 4).min_centers_found_ = true
      ∧ (accumulate getCenterClustersSpec (paramsWithMin 4) planeFacingXZ rotationAboutY
            fourAlignedCenters nodeAfterThreeFrames).1.nFrames = 4
      ∧ (getCenterClustersSpec
            (nodeAfterThreeFrames.cumulative_cloud
              ++ fourAlignedCenters.map (backProject planeFacingXZ rotationAboutY))
            [] 0.02 2 4).length = 5
      ∧ (consensus getCenterClustersSpec (paramsWithMin 4).cluster_size_
            (accumulate getCenterClustersSpec (paramsWithMin 4) planeFacingXZ rotationAboutY
              fourAlignedCenters nodeAfterThreeFrames).1
            (fourAlignedCenters.map (backProject planeFacingXZ rotationAboutY))).centers_cloud
          = [{ x := 2/5, y := 1, z := 11/5 }, { x := 2/5, y := 2, z := 11/5 },
             { x := 22/5, y := 1, z := -4/5 }, { x := 22/5, y := 2, z := -4/5 }]
      ∧ ((∃ msg, Out.centers msg
            ∈ (accumulate getCenterClustersSpec (paramsWithMin 4) planeFacingXZ rotationAboutY
                fourAlignedCenters nodeAfterThreeFrames).2)
        ↔ (if (getCenterClustersSpec
                  (nodeAfterThreeFrames.cumulative_cloud
                    ++ fourAlignedCenters.map (backProject planeFacingXZ rotationAboutY))
                  [] (paramsWithMin 4).cluster_size_
                  ((Int.tdiv (nodeAfterThreeFrames.nFrames + 1) 2 : Int) : ℚ)
                  ((nodeAfterThreeFrames.nFrames + 1 : Int) : ℚ)).length > 4 then
              getCenterClustersSpec
                (nodeAfterThreeFrames.cumulative_cloud
                  ++ fourAlignedCenters.map (backProject planeFacingXZ rotationAboutY))
                (getCenterClustersSpec
                  (nodeAfterThreeFrames.cumulative_cloud
                    ++ fourAlignedCenters.map (backProject planeFacingXZ rotationAboutY))
                  [] (paramsWithMin 4).cluster_size_
                  ((Int.tdiv (nodeAfterThreeFrames.nFrames + 1) 2 : Int) : ℚ)
                  ((nodeAfterThreeFrames.nFrames + 1 : Int) : ℚ))
                (paramsWithMin 4).cluster_size_
                (3 * ((nodeAfterThreeFrames.nFrames + 1 : Int) : ℚ) / 4)
                ((nodeAfterThreeFrames.nFrames + 1 : Int) : ℚ)
            else
              getCenterClustersSpec
                (nodeAfterThreeFrames.cumulative_cloud
                  ++ fourAlignedCenters.map (backProject planeFacingXZ rotationAboutY))
                [] (paramsWithMin 4).cluster_size_
                ((Int.tdiv (nodeAfterThreeFrames.nFrames + 1) 2 : Int) : ℚ)
                ((nodeAfterThreeFrames.nFrames + 1 : Int) : ℚ)).length = 4)
      ∧ Out.centers
          { cluster_iterations := 4, total_iterations := 4
            cloud := [{ x := 2/5, y := 1, z := 11/5 }, { x := 2/5, y := 2, z := 11/5 },
                      { x := 22/5, y := 1, z := -4/5 }, { x := 22/5, y := 2, z := -4/5 }] }
          ∈ (accumulate getCenterClustersSpec (paramsWithMin 4) planeFacingXZ rotationAboutY
              fourAlignedCenters nodeAfterThreeFrames).2 :=
  ⟨by decide!, by decide!, by decide!, by decide!,
   (consensus_control_flow getCenterClustersSpec (paramsWithMin 4) planeFacingXZ rotationAboutY
      fourAlignedCenters nodeAfterThreeFrames nodeAfterThreeFrames [] (by decide!)).2.2.2.2.2.2.2.2.2,
   by decide!⟩

/-- A centers message sent by the callback is one sent by the accumulation
stage, run on the `found_centers` the circle loop ended with and on the node
with `clouds_proc_` already incremented. -/
theorem callback_centers_message (getCenterClusters : CenterClusters) (params : Params)
    (fuel : Nat) (frame : Frame) (node : Node) (res : Node × List Out) (msg : ClusterCentroids)
    (h : callback getCenterClusters params fuel frame node = some res)
    (hmsg : Out.centers msg ∈ res.2) :
    ∃ (circles_cloud : List PointXYZ) (st : LoopState),
      circleLoop (loopEnvOf params frame circles_cloud) fuel
          (loopInit (transformPointCloud circles_cloud frame.rotation)
            (loopEnvOf params frame circles_cloud).zcoord_xyplane) = some st
        ∧ Out.centers msg
            ∈ (accumulate getCenterClusters params frame.coefficients frame.rotation
                st.found_centers { node with clouds_proc_ := node.clouds_proc_ + 1 }).2 := by
  unfold callback at h
  simp only at h
  split at h
  · cases h
    simp at hmsg
  · split at h
    · cases h
      simp at hmsg
    · split at h
      · cases h
        simp at hmsg
      · split at h
        · cases h
        · rename_i res1 hres
          cases h
          unfold circleStage at hres
          simp only at hres
          split at hres
          · cases hres
          · rename_i st hst
            cases hres
            refine ⟨_, st, hst, ?_⟩
            simpa using hmsg

/-- Claim C5, as the code has it: a centers message published by the
accumulation stage carries the centers committed from the current frame (the
accepted centers of this sweep, back-projected, in order), as many as the
frame has accepted centers: a number that passed the commit check, at most 4,
and exactly 4 when `min_centers_found` is 4.  Its `cluster_iterations` is the
incremented `nFrames`, its `total_iterations` is `clouds_proc_`, and at that
moment the consensus `centers_cloud`, which is not what the message carries,
holds exactly 4 centers. -/
theorem centers_message_content (getCenterClusters : CenterClusters) (params : Params)
    (coefficients : PlaneCoefficients) (rotation : Affine3) (found_centers : List PointXYZ)
    (node : Node) (msg : ClusterCentroids)
    (hmsg : Out.centers msg
      ∈ (accumulate getCenterClusters params coefficients rotation found_centers node).2) :
    msg.cloud = found_centers.map (backProject coefficients rotation)
      ∧ msg.cloud.length = found_centers.length
      ∧ commitCheck found_centers params.min_centers_found_ = true
      ∧ msg.cloud.length ≤ 4
      ∧ (params.min_centers_found_ = 4 → msg.cloud.length = 4)
      ∧ msg.cluster_iterations = node.nFrames + 1
      ∧ msg.total_iterations = node.clouds_proc_
      ∧ (consensus getCenterClusters params.cluster_size_
            (accumulate getCenterClusters params coefficients rotation found_centers node).1
            msg.cloud).centers_cloud.length = 4 := by
  by_cases hc : commitCheck found_centers params.min_centers_found_ = true
  · have hlen : found_centers.length < 5 := by
      unfold commitCheck at hc
      simp only [Bool.and_eq_true, decide_eq_true_iff] at hc
      exact hc.2
    have hnode := accumulate_of_commit getCenterClusters params coefficients rotation
      found_centers node hc
    have hout : (accumulate getCenterClusters params coefficients rotation found_centers node).2
        = [Out.cumulative
             (node.cumulative_cloud ++ found_centers.map (backProject coefficients rotation)),
           Out.circle_center (found_centers.map (backProject coefficients rotation)),
           Out.plane_model coefficients]
          ++ (consensus getCenterClusters params.cluster_size_
                (accumulate getCenterClusters params coefficients rotation found_centers node).1
                (found_centers.map (backProject coefficients rotation))).published := by
      simp [accumulate, hc, commitCenters_eq]
    rw [hout, List.mem_append] at hmsg
    rcases hmsg with hmsg | hmsg
    · simp at hmsg
    · rw [consensus_published_mem] at hmsg
      obtain ⟨h4, hm⟩ := hmsg
      rw [hnode] at hm
      simp only at hm
      have hcloud : msg.cloud = found_centers.map (backProject coefficients rotation) := by
        rw [hm]
      refine ⟨hcloud, by rw [hcloud]; simp, hc, by rw [hcloud, List.length_map]; omega, ?_,
        by rw [hm], by rw [hm], ?_⟩
      · intro hmin
        have hge : sizeGe found_centers.length params.min_centers_found_ = true := by
          unfold commitCheck at hc
          simp only [Bool.and_eq_true] at hc
          exact hc.1
        rw [hmin] at hge
        have := (sizeGe_of_nonneg found_centers.length 4 (by decide) (by decide)).mp hge
        rw [hcloud, List.length_map]
        omega
      · rw [hcloud]
        exact h4
  · have hf : commitCheck found_centers params.min_centers_found_ = false := by
      simpa using hc
    rw [accumulate_of_reject _ _ _ _ _ _ hf] at hmsg
    simp at hmsg

/-- An instance: the second frame brings three
centers, `min_centers_found` is 3; the message carries those three centers. -/
theorem centers_message_content_witness :
    Out.centers
        { cluster_iterations := 2, total_iterations := 2
          cloud := [{ x := 0, y := 0, z := 0 }, { x := 0, y := 1, z := 0 },
                    { x := 0, y := 0, z := 1 }] }
        ∈ (accumulate getCenterClustersSpec (paramsWithMin 3) planeXZero rotationXToMinusZ
            threeFoundCenters nodeAfterOneFrame).2
      ∧ [{ x := 0, y := 0, z := 0 }, { x := 0, y := 1, z := 0 }, { x := 0, y := 0, z := 1 }]
          = threeFoundCenters.map (backProject planeXZero rotationXToMinusZ) :=
  ⟨by decide!,
   (centers_message_content getCenterClustersSpec (paramsWithMin 3) planeXZero
      rotationXToMinusZ threeFoundCenters nodeAfterOneFrame
      { cluster_iterations := 2, total_iterations := 2
        cloud := [{ x := 0, y := 0, z := 0 }, { x := 0, y := 1, z := 0 },
                  { x := 0, y := 0, z := 1 }] }
      (by decide!)).1⟩

/-- Claim C5 fails as stated: with `min_centers_found = 3`, a second frame of
three accepted centers is committed, the buffer of seven points clusters into
four consensus centers, and the centers message that goes out carries the
three centers of the frame, not the four consensus centers. -/
theorem centers_message_counterexample :
    (accumulate getCenterClustersSpec (paramsWithMin 3) planeXZero rotationXToMinusZ
        threeFoundCenters nodeAfterOneFrame).2
      = [Out.cumulative
           [{ x := 0, y := 0, z := 0 }, { x := 0, y := 1, z := 0 },
            { x := 0, y := 0, z := 1 }, { x := 0, y := 1, z := 1 },
            { x := 0, y := 0, z := 0 }, { x := 0, y := 1, z := 0 },
            { x := 0, y := 0, z := 1 }],
         Out.circle_center
           [{ x := 0, y := 0, z := 0 }, { x := 0, y := 1, z := 0 },
            { x := 0, y := 0, z := 1 }],
         Out.plane_model planeXZero,
         Out.centers_centroid
           [{ x := 0, y := 0, z := 0 }, { x := 0, y := 1, z := 0 },
            { x := 0, y := 0, z := 1 }, { x := 0, y := 1, z := 1 }],
         Out.centers
           { cluster_iterations := 2, total_iterations := 2
             cloud := [{ x := 0, y := 0, z := 0 }, { x := 0, y := 1, z := 0 },
                       { x := 0, y := 0, z := 1 }] }] := by
  decide!

/-! ## Circle loop: pool, turns and termination -/

theorem dropIndices_sublist (indices : List Nat) (start : Nat) (cloud : List PointXYZ) :
    List.Sublist (dropIndices indices start cloud) cloud := by
  induction cloud generalizing start with
  | nil => exact List.Sublist.slnil
  | cons p ps ih =>
    unfold dropIndices
    by_cases h : start ∈ indices
    · rw [if_pos h]
      exact List.Sublist.cons p (ih (start + 1))
    · rw [if_neg h]
      exact List.Sublist.cons₂ p (ih (start + 1))

theorem dropIndices_length_le (indices : List Nat) (start : Nat) (cloud : List PointXYZ) :
    (dropIndices indices start cloud).length ≤ cloud.length :=
  (dropIndices_sublist indices start cloud).length_le

theorem dropIndices_length_lt (indices : List Nat) (start : Nat) (cloud : List PointXYZ)
    (h : ∃ i ∈ indices, start ≤ i ∧ i < start + cloud.length) :
    (dropIndices indices start cloud).length < cloud.length := by
  induction cloud generalizing start with
  | nil =>
    obtain ⟨i, _, h1, h2⟩ := h
    simp only [List.length_nil] at h2
    omega
  | cons p ps ih =>
    unfold dropIndices
    by_cases hs : start ∈ indices
    · rw [if_pos hs]
      have := dropIndices_length_le indices (start + 1) ps
      simp only [List.length_cons]
      omega
    · rw [if_neg hs]
      obtain ⟨i, hi, h1, h2⟩ := h
      have hne : i ≠ start := fun e => hs (e ▸ hi)
      simp only [List.length_cons] at h2 ⊢
      have := ih (start + 1) ⟨i, hi, by omega, by omega⟩
      omega

theorem dropIndices_eq_filterMap (indices : List Nat) (start : Nat) (cloud : List PointXYZ) :
    dropIndices indices start cloud
      = ((List.range' start cloud.length).filter (fun j => decide (j ∉ indices))).filterMap
          (fun j => cloud[j - start]?) := by
  induction cloud generalizing start with
  | nil => simp [dropIndices]
  | cons p ps ih =>
    have hrest : ((List.range' (start + 1) ps.length).filter
          (fun j => decide (j ∉ indices))).filterMap (fun j => (p :: ps)[j - start]?)
        = ((List.range' (start + 1) ps.length).filter
          (fun j => decide (j ∉ indices))).filterMap (fun j => ps[j - (start + 1)]?) := by
      apply List.filterMap_congr
      intro j hj
      have hj1 := (List.mem_filter.mp hj).1
      rw [List.mem_range'_1] at hj1
      have e : j - start = (j - (start + 1)) + 1 := by omega
      rw [e, List.getElem?_cons_succ]
    unfold dropIndices
    simp only [List.length_cons, List.range'_succ]
    by_cases hs : start ∈ indices
    · rw [if_pos hs, List.filter_cons_of_neg (by simpa using hs), hrest]
      exact ih (start + 1)
    · rw [if_neg hs, List.filter_cons_of_pos (by simpa using hs), List.filterMap_cons]
      simp only [Nat.sub_self, List.getElem?_cons_zero]
      rw [hrest, ← ih (start + 1)]

/-- The negative extraction keeps, in order, the points at the positions that
are not listed. -/
theorem extractNegative_eq_withoutPositions (cloud : List PointXYZ) (indices : List Nat) :
    extractNegative cloud indices = withoutPositions cloud indices := by
  unfold extractNegative withoutPositions
  rw [dropIndices_eq_filterMap, List.range_eq_range']
  simp

theorem extractNegative_length_lt (cloud : List PointXYZ) (indices : List Nat)
    (hne : indices ≠ []) (hvalid : ∀ i ∈ indices, i < cloud.length) :
    (extractNegative cloud indices).length < cloud.length := by
  unfold extractNegative
  apply dropIndices_length_lt
  cases indices with
  | nil => exact absurd rfl hne
  | cons i rest =>
    exact ⟨i, List.mem_cons_self _ _, Nat.zero_le _,
      by simpa using hvalid i (List.mem_cons_self _ _)⟩

/-- What a completed turn does to the pool and the counters: the guard held,
the inlier set was not empty, the pool lost the inliers and, when the fit was
in the distance window, the quarantine lost the points near the center. -/
theorem loopStep_some (env : LoopEnv) (st st1 : LoopState)
    (h : loopStep env st = some st1) :
    loopGuard st = true
      ∧ (env.circle_fit st.iter st.copy_cloud).indices ≠ []
      ∧ st1.copy_cloud
          = extractNegative st.copy_cloud (env.circle_fit st.iter st.copy_cloud).indices
      ∧ st1.iter = st.iter + 1
      ∧ st1.centroid_cloud_inliers
          = if sqrtLt (sqDist2D env.edges_centroid.x env.edges_centroid.y
                (env.circle_fit st.iter st.copy_cloud).cx
                (env.circle_fit st.iter st.copy_cloud).cy) env.centroid_distance_min_ then
              st.centroid_cloud_inliers
                ++ extractIndices st.copy_cloud (env.circle_fit st.iter st.copy_cloud).indices
            else if sqrtGt (sqDist2D env.edges_centroid.x env.edges_centroid.y
                (env.circle_fit st.iter st.copy_cloud).cx
                (env.circle_fit st.iter st.copy_cloud).cy) env.centroid_distance_max_ then
              st.centroid_cloud_inliers
            else
              eraseNearCenter env.circle_radius_
                { x := (env.circle_fit st.iter st.copy_cloud).cx
                  y := (env.circle_fit st.iter st.copy_cloud).cy
                  z := env.zcoord_xyplane }
                st.centroid_cloud_inliers := by
  unfold loopStep at h
  split at h
  · rename_i hg
    unfold loopBody at h
    simp only at h
    split at h
    · cases h
    · rename_i hlen
      cases h
      refine ⟨hg, ?_, rfl, rfl, ?_⟩
      · intro he
        exact hlen (by rw [he]; rfl)
      · simp only
        split
        · rfl
        · split <;> rfl
  · cases h

theorem loopStep_pool_shrinks (env : LoopEnv)
    (hfit : ∀ (n : Nat) (cloud : List PointXYZ),
      ∀ i ∈ (env.circle_fit n cloud).indices, i < cloud.length)
    (st st1 : LoopState) (h : loopStep env st = some st1) :
    st1.copy_cloud.length < st.copy_cloud.length := by
  obtain ⟨_, hne, hcopy, _, _⟩ := loopStep_some env st st1 h
  rw [hcopy]
  exact extractNegative_length_lt _ _ hne (hfit st.iter st.copy_cloud)

theorem loopStep_none_of_empty_pool (env : LoopEnv) (st : LoopState)
    (h : st.copy_cloud.length = 0) : loopStep env st = none := by
  unfold loopStep loopGuard
  simp [h]

theorem loopTurns_exit (env : LoopEnv)
    (hfit : ∀ (n : Nat) (cloud : List PointXYZ),
      ∀ i ∈ (env.circle_fit n cloud).indices, i < cloud.length)
    (k : Nat) (st : LoopState) (hk : st.copy_cloud.length ≤ k) :
    loopStep env (loopTurns env k st) = none := by
  induction k generalizing st with
  | zero =>
    unfold loopTurns
    exact loopStep_none_of_empty_pool env st (by omega)
  | succ k ih =>
    unfold loopTurns
    cases hs : loopStep env st with
    | none => exact hs
    | some st1 =>
      have := loopStep_pool_shrinks env hfit st st1 hs
      exact ih st1 (by omega)

theorem completedTurns_le_pool (env : LoopEnv)
    (hfit : ∀ (n : Nat) (cloud : List PointXYZ),
      ∀ i ∈ (env.circle_fit n cloud).indices, i < cloud.length)
    (k : Nat) (st : LoopState) :
    completedTurns env k st ≤ st.copy_cloud.length := by
  induction k generalizing st with
  | zero => exact Nat.zero_le _
  | succ k ih =>
    unfold completedTurns
    cases hs : loopStep env st with
    | none => exact Nat.zero_le _
    | some st1 =>
      have h1 := loopStep_pool_shrinks env hfit st st1 hs
      have h2 := ih st1
      simp only
      omega

theorem circleLoop_of_exit (env : LoopEnv) (k : Nat) (st : LoopState)
    (h : loopStep env (loopTurns env k st) = none) :
    circleLoop env (k + 1) st = some (loopTurns env k st) := by
  induction k generalizing st with
  | zero =>
    unfold loopTurns at h ⊢
    unfold circleLoop
    rw [h]
  | succ k ih =>
    unfold loopTurns at h ⊢
    unfold circleLoop
    cases hs : loopStep env st with
    | none => rfl
    | some st1 =>
      rw [hs] at h
      exact ih st1 h

theorem loopInit_pool_length (xy_cloud : List PointXYZ) (zcoord_xyplane : ℚ) :
    (loopInit xy_cloud zcoord_xyplane).copy_cloud.length = xy_cloud.length := by
  simp [loopInit]

/-- Claim C14: when every circle fit returns indices into the pool it was
given, each completed turn of the loop has a non-empty inlier set and replaces
the pool by the pool without the points at the inlier positions, which is
strictly shorter; so at most `N` turns are completed, `N` the number of
candidate points at loop entry, after which the loop is at its exit, and the
loop run with fuel `N + 1` returns that state. -/
theorem circleLoop_terminates (env : LoopEnv) (xy_cloud : List PointXYZ)
    (hfit : ∀ (n : Nat) (cloud : List PointXYZ),
      ∀ i ∈ (env.circle_fit n cloud).indices, i < cloud.length) :
    (∀ st st1 : LoopState, loopStep env st = some st1 →
        (env.circle_fit st.iter st.copy_cloud).indices ≠ []
          ∧ st1.copy_cloud
              = withoutPositions st.copy_cloud (env.circle_fit st.iter st.copy_cloud).indices
          ∧ st1.copy_cloud.length < st.copy_cloud.length)
      ∧ (∀ k : Nat,
          completedTurns env k (loopInit xy_cloud env.zcoord_xyplane) ≤ xy_cloud.length)
      ∧ loopStep env (loopTurns env xy_cloud.length (loopInit xy_cloud env.zcoord_xyplane))
          = none
      ∧ circleLoop env (xy_cloud.length + 1) (loopInit xy_cloud env.zcoord_xyplane)
          = some (loopTurns env xy_cloud.length (loopInit xy_cloud env.zcoord_xyplane)) := by
  have hexit := loopTurns_exit env hfit xy_cloud.length
    (loopInit xy_cloud env.zcoord_xyplane) (by rw [loopInit_pool_length])
  refine ⟨?_, ?_, hexit, circleLoop_of_exit env _ _ hexit⟩
  · intro st st1 h
    obtain ⟨_, hne, hcopy, _, _⟩ := loopStep_some env st st1 h
    refine ⟨hne, ?_, loopStep_pool_shrinks env hfit st st1 h⟩
    rw [hcopy, extractNegative_eq_withoutPositions]
  · intro k
    have := completedTurns_le_pool env hfit k (loopInit xy_cloud env.zcoord_xyplane)
    rw [loopInit_pool_length] at this
    exact this

/-- An instance: every fit takes the first point of the pool; on the eight
candidate points the loop completes five turns and is then at its exit. -/
theorem circleLoop_terminates_witness :
    completedTurns loopEnvFirstPoint 8 (loopInit candidateCloud loopEnvFirstPoint.zcoord_xyplane)
        = 5
      ∧ loopStep loopEnvFirstPoint
          (loopTurns loopEnvFirstPoint candidateCloud.length
            (loopInit candidateCloud loopEnvFirstPoint.zcoord_xyplane)) = none
      ∧ circleLoop loopEnvFirstPoint (candidateCloud.length + 1)
          (loopInit candidateCloud loopEnvFirstPoint.zcoord_xyplane)
          = some (loopTurns loopEnvFirstPoint candidateCloud.length
              (loopInit candidateCloud loopEnvFirstPoint.zcoord_xyplane)) :=
  ⟨by decide!,
   (circleLoop_terminates loopEnvFirstPoint candidateCloud
      (by
        intro n cloud i hi
        cases cloud with
        | nil => simp [loopEnvFirstPoint] at hi
        | cons p ps =>
          simp only [loopEnvFirstPoint, List.mem_singleton] at hi
          simp [hi])).2.2⟩

/-! ## Circle loop: number of turns -/

theorem loopTurns_counts (env : LoopEnv) (k : Nat) (st : LoopState) :
    (loopTurns env k st).found_centers.length
        = st.found_centers.length + acceptedTurns env k st
      ∧ (loopTurns env k st).iter = st.iter + completedTurns env k st
      ∧ acceptedTurns env k st ≤ completedTurns env k st := by
  induction k generalizing st with
  | zero => simp [loopTurns, acceptedTurns, completedTurns]
  | succ k ih =>
    unfold loopTurns acceptedTurns completedTurns
    cases hs : loopStep env st with
    | none => simp
    | some st1 =>
      obtain ⟨h1, h2, h3⟩ := ih st1
      have hf := (loopStep_found_centers env st st1 hs).2
      have hi := (loopStep_some env st st1 hs).2.2.2.1
      simp only
      refine ⟨?_, ?_, ?_⟩
      · rw [h1, hf]
        by_cases ha : accepts env st = true
        · simp only [ha, if_true, List.length_append, List.length_singleton]
          omega
        · simp only [ha]
          simp
      · rw [h2, hi]
        omega
      · by_cases ha : accepts env st = true
        · simp only [ha, if_true]
          omega
        · have hz : (if accepts env st = true then 1 else 0) = 0 := if_neg ha
          rw [hz]
          omega

/-- Claim C11, as the code has it: of the turns the loop completes, at most 4
have their fit accepted, and these are the entries of `found_centers`; a turn
whose fit is rejected is not counted by the loop condition, so the number of
completed turns, which is the value of `iter`, is only bounded from below by
the number of accepted ones. -/
theorem accepted_turns_bound (env : LoopEnv) (xy_cloud : List PointXYZ) (k : Nat) :
    acceptedTurns env k (loopInit xy_cloud env.zcoord_xyplane) ≤ 4
      ∧ (loopTurns env k (loopInit xy_cloud env.zcoord_xyplane)).found_centers.length
          = acceptedTurns env k (loopInit xy_cloud env.zcoord_xyplane)
      ∧ (loopTurns env k (loopInit xy_cloud env.zcoord_xyplane)).iter
          = completedTurns env k (loopInit xy_cloud env.zcoord_xyplane)
      ∧ acceptedTurns env k (loopInit xy_cloud env.zcoord_xyplane)
          ≤ completedTurns env k (loopInit xy_cloud env.zcoord_xyplane) := by
  obtain ⟨h1, h2, h3⟩ := loopTurns_counts env k (loopInit xy_cloud env.zcoord_xyplane)
  have h4 := (found_centers_valid_turns env xy_cloud k).1
  have e1 : (loopInit xy_cloud env.zcoord_xyplane).found_centers.length = 0 := rfl
  have e2 : (loopInit xy_cloud env.zcoord_xyplane).iter = 0 := rfl
  rw [e1, Nat.zero_add] at h1
  rw [e2, Nat.zero_add] at h2
  exact ⟨by omega, h1, h2, h3⟩

/-- Claim C11 fails as stated: with fits that are all too far from the pattern
centroid, the loop on eight candidate points completes five turns before it
is left, with no center found. -/
theorem loop_turns_counterexample :
    completedTurns loopEnvFarFits 5 (loopInit candidateCloud 0) = 5
      ∧ acceptedTurns loopEnvFarFits 5 (loopInit candidateCloud 0) = 0
      ∧ (circleLoop loopEnvFarFits 6 (loopInit candidateCloud 0)).map
          (fun st => (st.iter, st.found_centers, st.copy_cloud.length))
          = some (5, [], 3) := by
  decide!

/-! ## Circle loop: the test at the loop head -/

/-- Claim C13, as the code has it: with fewer than 4 centers found, the loop
is left at its head exactly when the remaining pool and the quarantine hold
fewer than 4 points together or the remaining pool is empty; when they hold 4
or more and the remaining pool is not empty the turn runs the body, which
asks for another circle fit. -/
theorem loop_head_threshold (env : LoopEnv) (st : LoopState)
    (hfound : st.found_centers.length < 4) :
    (loopGuard st = false
        ↔ (st.copy_cloud.length + st.centroid_cloud_inliers.length < 4
            ∨ st.copy_cloud.length = 0))
      ∧ (loopGuard st = false → loopStep env st = none)
      ∧ ((4 ≤ st.copy_cloud.length + st.centroid_cloud_inliers.length
            ∧ st.copy_cloud.length ≠ 0) →
          loopStep env st = loopBody env st) := by
  refine ⟨?_, ?_, ?_⟩
  · rw [← Bool.not_eq_true]
    unfold loopGuard
    simp only [Bool.and_eq_true, decide_eq_true_iff]
    constructor
    · intro h
      by_contra hc
      apply h
      refine ⟨⟨?_, hfound⟩, ?_⟩ <;> omega
    · intro h hg
      omega
  · intro h
    unfold loopStep
    simp [h]
  · intro h
    have hg : loopGuard st = true := by
      unfold loopGuard
      simp only [Bool.and_eq_true, decide_eq_true_iff]
      refine ⟨⟨?_, hfound⟩, h.2⟩
      omega
    unfold loopStep
    simp [hg]

/-- An instance: at loop entry on the eight candidate points the body runs. -/
theorem loop_head_threshold_witness :
    (loopInit candidateCloud 0).found_centers.length < 4
      ∧ loopStep loopEnvExample (loopInit candidateCloud 0)
          = loopBody loopEnvExample (loopInit candidateCloud 0) :=
  ⟨by decide,
   (loop_head_threshold loopEnvExample (loopInit candidateCloud 0) (by decide)).2.2
     ⟨by decide, by decide⟩⟩

/-- Claim C13 fails as stated: with no center found and a pool of exactly 3
points (not fewer than 3), nothing in quarantine, the loop is left at its head
although the body would have obtained a fit with three inliers. -/
theorem loop_head_three_points_counterexample :
    (loopInit threeCandidates 0).found_centers.length = 0
      ∧ (loopInit threeCandidates 0).copy_cloud.length
          + (loopInit threeCandidates 0).centroid_cloud_inliers.length = 3
      ∧ loopStep loopEnvExample (loopInit threeCandidates 0) = none
      ∧ (loopEnvExample.circle_fit 0 (loopInit threeCandidates 0).copy_cloud).indices
          = [0, 1, 2]
      ∧ (loopBody loopEnvExample (loopInit threeCandidates 0)).isSome = true := by
  decide!

/-! ## Circle loop: the quarantine -/

theorem eraseNearCenter_eq_filter (circle_radius_ : ℚ) (center : PointXYZ)
    (quarantine : List PointXYZ) :
    eraseNearCenter circle_radius_ center quarantine
      = quarantine.filter (fun pt =>
          !sqrtLt ((pt.x - center.x) ^ 2 + (pt.y - center.y) ^ 2 + (pt.z - center.z) ^ 2)
            (circle_radius_ + 0.02)) := by
  induction quarantine with
  | nil => rfl
  | cons pt rest ih =>
    unfold eraseNearCenter
    by_cases h : sqrtLt ((pt.x - center.x) ^ 2 + (pt.y - center.y) ^ 2
        + (pt.z - center.z) ^ 2) (circle_radius_ + 0.02) = true
    · simp [h, ih]
    · simp [h, ih]

theorem extractNegative_sublist (cloud : List PointXYZ) (indices : List Nat) :
    List.Sublist (extractNegative cloud indices) cloud :=
  dropIndices_sublist indices 0 cloud

/-- Claim C12, as the code has it: on a turn whose fit is accepted, the
quarantine keeps exactly its points at distance at least
`circle_radius_ + 0.02` from the accepted center, the closer ones being erased
and not put into the remaining pool, which only loses the inliers of the fit;
on a turn whose fit is rejected as too central or too far, every quarantined
point stays quarantined. -/
theorem quarantine_release (env : LoopEnv) (st st1 : LoopState)
    (h : loopStep env st = some st1) :
    (accepts env st = true →
        (∀ pt : PointXYZ,
            pt ∈ st1.centroid_cloud_inliers
              ↔ (pt ∈ st.centroid_cloud_inliers
                  ∧ ((env.circle_radius_ + 0.02 : ℚ) : ℝ)
                      ≤ Real.sqrt
                          (((pt.x - (env.circle_fit st.iter st.copy_cloud).cx) ^ 2
                            + (pt.y - (env.circle_fit st.iter st.copy_cloud).cy) ^ 2
                            + (pt.z - env.zcoord_xyplane) ^ 2 : ℚ) : ℝ)))
          ∧ List.Sublist st1.centroid_cloud_inliers st.centroid_cloud_inliers
          ∧ st1.copy_cloud
              = withoutPositions st.copy_cloud (env.circle_fit st.iter st.copy_cloud).indices
          ∧ List.Sublist st1.copy_cloud st.copy_cloud)
      ∧ ((Real.sqrt ((sqDist2D env.edges_centroid.x env.edges_centroid.y
                (env.circle_fit st.iter st.copy_cloud).cx
                (env.circle_fit st.iter st.copy_cloud).cy : ℚ) : ℝ)
              < (env.centroid_distance_min_ : ℝ)
            ∨ (env.centroid_distance_max_ : ℝ)
              < Real.sqrt ((sqDist2D env.edges_centroid.x env.edges_centroid.y
                (env.circle_fit st.iter st.copy_cloud).cx
                (env.circle_fit st.iter st.copy_cloud).cy : ℚ) : ℝ)) →
          ∃ added : List PointXYZ,
            st1.centroid_cloud_inliers = st.centroid_cloud_inliers ++ added) := by
  obtain ⟨_, _, hcopy, _, hq⟩ := loopStep_some env st st1 h
  constructor
  · intro ha
    unfold accepts at ha
    simp only [Bool.and_eq_true, Bool.not_eq_true'] at ha
    rw [ha.1.1, ha.1.2] at hq
    simp only [Bool.false_eq_true, if_false] at hq
    rw [eraseNearCenter_eq_filter] at hq
    refine ⟨?_, ?_, ?_, ?_⟩
    · intro pt
      rw [hq, List.mem_filter]
      simp only [Bool.not_eq_true', ← Bool.not_eq_true, sqrtLt_iff, not_lt]
    · rw [hq]
      exact List.filter_sublist _
    · rw [hcopy, extractNegative_eq_withoutPositions]
    · rw [hcopy]
      exact extractNegative_sublist _ _
  · intro hrej
    by_cases h1 : sqrtLt (sqDist2D env.edges_centroid.x env.edges_centroid.y
        (env.circle_fit st.iter st.copy_cloud).cx
        (env.circle_fit st.iter st.copy_cloud).cy) env.centroid_distance_min_ = true
    · rw [if_pos h1] at hq
      exact ⟨_, hq⟩
    · have h2 : sqrtGt (sqDist2D env.edges_centroid.x env.edges_centroid.y
          (env.circle_fit st.iter st.copy_cloud).cx
          (env.circle_fit st.iter st.copy_cloud).cy) env.centroid_distance_max_ = true := by
        rcases hrej with hr | hr
        · exact absurd ((sqrtLt_iff _ _).mpr hr) h1
        · exact (sqrtGt_iff _ _).mpr hr
      rw [if_neg h1, if_pos h2] at hq
      exact ⟨[], by rw [hq, List.append_nil]⟩

/-- An instance: the first turn quarantines two points, the second turn
accepts a circle at `(1,0)`; the remaining pool of the third turn is a
sublist of the pool of the second. -/
theorem quarantine_release_witness :
    loopStep loopEnvReclaim (loopTurns loopEnvReclaim 1 (loopInit candidateCloud 0))
        = some (loopTurns loopEnvReclaim 2 (loopInit candidateCloud 0))
      ∧ accepts loopEnvReclaim (loopTurns loopEnvReclaim 1 (loopInit candidateCloud 0)) = true
      ∧ List.Sublist (loopTurns loopEnvReclaim 2 (loopInit candidateCloud 0)).copy_cloud
          (loopTurns loopEnvReclaim 1 (loopInit candidateCloud 0)).copy_cloud :=
  ⟨by decide!, by decide!,
   ((quarantine_release loopEnvReclaim
      (loopTurns loopEnvReclaim 1 (loopInit candidateCloud 0))
      (loopTurns loopEnvReclaim 2 (loopInit candidateCloud 0)) (by decide!)).1
      (by decide!)).2.2.2⟩

/-- Claim C12 fails as stated: the first turn quarantines `(1,0.12)` and
`(1,0.5)`; the second turn accepts the circle at `(1,0)` with radius bound
`0.12 + 0.02`, and the quarantined point `(1,0.12)`, at distance 0.12 from
that center, leaves the quarantine but is not in the remaining pool of the
next turn. -/
theorem quarantine_release_counterexample :
    (loopTurns loopEnvReclaim 1 (loopInit candidateCloud 0)).centroid_cloud_inliers
        = [{ x := 1, y := 0.12, z := 0 }, { x := 1, y := 0.5, z := 0 }]
      ∧ loopStep loopEnvReclaim (loopTurns loopEnvReclaim 1 (loopInit candidateCloud 0))
          = some (loopTurns loopEnvReclaim 2 (loopInit candidateCloud 0))
      ∧ accepts loopEnvReclaim (loopTurns loopEnvReclaim 1 (loopInit candidateCloud 0)) = true
      ∧ (loopTurns loopEnvReclaim 2 (loopInit candidateCloud 0)).found_centers
          = [{ x := 1, y := 0, z := 0 }]
      ∧ sqrtLt (((1 : ℚ) - 1) ^ 2 + ((0.12 : ℚ) - 0) ^ 2 + ((0 : ℚ) - 0) ^ 2)
          (loopEnvReclaim.circle_radius_ + 0.02) = true
      ∧ (loopTurns loopEnvReclaim 2 (loopInit candidateCloud 0)).centroid_cloud_inliers
          = [{ x := 1, y := 0.5, z := 0 }]
      ∧ (loopTurns loopEnvReclaim 2 (loopInit candidateCloud 0)).copy_cloud
          = [{ x := 1, y := 1.12, z := 0 }, { x := 1.12, y := 1, z := 0 },
             { x := 0.88, y := 1, z := 0 }]
      ∧ ({ x := 1, y := 0.12, z := 0 } : PointXYZ)
          ∉ (loopTurns loopEnvReclaim 2 (loopInit candidateCloud 0)).copy_cloud := by
  decide!

end Lvt2Calib
